import Mathlib

/-!
Verification of the `simtom` synthetic-data simulator

A shallow embedding, in Lean 4, of the parts of the `simtom` repository that
the specification's claims are about:

* `simtom/core/holidays.py` — calendar arithmetic (dates are embedded as
  proleptic-Gregorian triples with conversions to and from Python's
  `date.toordinal()` day numbers);
* `simtom/core/entities.py` — the bounded, insertion-ordered entity registries
  (Python `dict`s are embedded as insertion-ordered association lists, which is
  exactly the observable behaviour of `dict` iteration order);
* `simtom/core/generator.py` — configuration validation and the two streaming
  delivery loops;
* `simtom/generators/ecommerce/base.py` and `bnpl.py` — payment-method entity
  fabrication, risk scoring, default simulation, and historical timestamp
  synthesis.

Randomness is embedded by passing the individual pseudo-random draws as
explicit oracle arguments: `random.random()` draws become arbitrary rationals,
`random.randint(a, b)` becomes `a + draw % (b - a + 1)` for an arbitrary
natural-number draw, and `random.choice`/`random.choices` pick an element of
the population by an arbitrary index reduced modulo the population size.  All
claims proved below hold for every value of these oracles, hence for every
run of the original program.
-/

namespace Simtom

/-! Calendar arithmetic (`datetime.date` and `simtom/core/holidays.py`)

Python `date` objects are triples `(year, month, day)`; `toordinal` converts a
date to its proleptic-Gregorian day number (0001-01-01 is day 1) and dates are
compared chronologically, i.e. by ordinal.  `fromOrdinal` uses the standard
civil-from-days algorithm (integer arithmetic only). -/

structure Date where
  year : Int
  month : Int
  day : Int
deriving DecidableEq, Repr

/-- Cumulative day counts before each month in a non-leap year
(`_DAYS_BEFORE_MONTH` in CPython's `datetime`). -/
def daysBeforeMonthTable : List Int :=
  [0, 31, 59, 90, 120, 151, 181, 212, 243, 273, 304, 334]

def isLeapYear (y : Int) : Bool :=
  y % 4 == 0 && (y % 100 != 0 || y % 400 == 0)

def daysBeforeMonth (y m : Int) : Int :=
  (daysBeforeMonthTable.getD (m - 1).toNat 0) +
    (if 2 < m && isLeapYear y then 1 else 0)

/-- Python's `date.toordinal()`: days since 0000-12-31, so 0001-01-01 ↦ 1. -/
def Date.toOrd (d : Date) : Int :=
  365 * (d.year - 1) + (d.year - 1).fdiv 4 - (d.year - 1).fdiv 100 +
    (d.year - 1).fdiv 400 + daysBeforeMonth d.year d.month + d.day

/-- Inverse of `toOrd` (civil-from-days, Gregorian calendar, integer only).
`719163` is the ordinal of 1970-01-01. -/
def Date.ofOrd (n : Int) : Date :=
  let z := n - 719163 + 719468
  let era := z.fdiv 146097
  let doe := z - era * 146097
  let yoe := (doe - doe.fdiv 1460 + doe.fdiv 36524 - doe.fdiv 146096).fdiv 365
  let doy := doe - (365 * yoe + yoe.fdiv 4 - yoe.fdiv 100)
  let mp := (5 * doy + 2).fdiv 153
  let d := doy - (153 * mp + 2).fdiv 5 + 1
  let m := mp + (if mp < 10 then 3 else -9)
  ⟨yoe + era * 400 + (if m ≤ 2 then 1 else 0), m, d⟩

/-- `date + timedelta(days = k)`. -/
def Date.addDays (d : Date) (k : Int) : Date := Date.ofOrd (d.toOrd + k)

/-- Python's `date.weekday()`: Monday = 0 … Sunday = 6. -/
def Date.weekday (d : Date) : Int := (d.toOrd + 6) % 7

/-- Chronological comparison of dates (Python compares `date` objects
chronologically; on valid dates this coincides with ordinal comparison). -/
def dateLe (a b : Date) : Bool := decide (a.toOrd ≤ b.toOrd)

def dateLt (a b : Date) : Bool := decide (a.toOrd < b.toOrd)

/-- `_get_nth_weekday(year, month, weekday, n)` from `holidays.py`:
first occurrence of the weekday in the month plus `n-1` weeks, falling back
one week if that overflows into the next month. -/
def getNthWeekday (year month weekday n : Int) : Date :=
  let firstDay : Date := ⟨year, month, 1⟩
  let daysUntilWeekday := (weekday - firstDay.weekday) % 7
  let firstOccurrence := firstDay.addDays daysUntilWeekday
  let targetDate := firstOccurrence.addDays (7 * (n - 1))
  if targetDate.month ≠ month then firstOccurrence.addDays (7 * (n - 2))
  else targetDate

/-- `get_major_holidays(year)`, as the insertion-ordered name ↦ date mapping
built by the Python function. -/
def getMajorHolidays (year : Int) : List (String × Date) :=
  let thanksgiving := getNthWeekday year 11 3 4
  [("new_years_day", ⟨year, 1, 1⟩),
   ("valentines_day", ⟨year, 2, 14⟩),
   ("independence_day", ⟨year, 7, 4⟩),
   ("halloween", ⟨year, 10, 31⟩),
   ("christmas_eve", ⟨year, 12, 24⟩),
   ("christmas_day", ⟨year, 12, 25⟩),
   ("new_years_eve", ⟨year, 12, 31⟩),
   ("mothers_day", getNthWeekday year 5 0 2),
   ("fathers_day", getNthWeekday year 6 0 3),
   ("labor_day", getNthWeekday year 9 0 1),
   ("thanksgiving", thanksgiving),
   ("black_friday", thanksgiving.addDays 1),
   ("cyber_monday", thanksgiving.addDays 4)]

/-- `holidays['name']` lookup (all keys used by the source are present). -/
def lookupDate (l : List (String × Date)) (k : String) : Date :=
  (l.lookup k).getD ⟨1, 1, 1⟩

/-- `get_holiday_periods(year)`: name ↦ inclusive `(start, end)` pairs, in the
order the Python dict literal builds them. -/
def getHolidayPeriods (year : Int) : List (String × (Date × Date)) :=
  let holidays := getMajorHolidays year
  let thanksgiving := lookupDate holidays "thanksgiving"
  let cyberMonday := lookupDate holidays "cyber_monday"
  let valentines := lookupDate holidays "valentines_day"
  let mothers := lookupDate holidays "mothers_day"
  [("back_to_school", (⟨year, 8, 15⟩, ⟨year, 9, 15⟩)),
   ("black_friday_week", (thanksgiving.addDays (-1), cyberMonday)),
   ("christmas_shopping", (⟨year, 12, 1⟩, ⟨year, 12, 23⟩)),
   ("post_christmas", (⟨year, 12, 26⟩, ⟨year + 1, 1, 2⟩)),
   ("valentines_week", (valentines.addDays (-3), valentines.addDays 1)),
   ("mothers_day_week", (mothers.addDays (-3), mothers.addDays 1)),
   ("summer_holidays", (⟨year, 6, 15⟩, ⟨year, 8, 15⟩)),
   ("year_end_holidays", (⟨year, 12, 20⟩, ⟨year + 1, 1, 5⟩))]

/-- `is_holiday(target_date, holiday_name)`. -/
def isHoliday (targetDate : Date) (holidayName : String) : Bool :=
  decide ((getMajorHolidays targetDate.year).lookup holidayName = some targetDate)

/-- `is_holiday_period(target_date, period_name)`. -/
def isHolidayPeriod (targetDate : Date) (periodName : String) : Bool :=
  match (getHolidayPeriods targetDate.year).lookup periodName with
  | none => false
  | some (startDate, endDate) => dateLe startDate targetDate && dateLe targetDate endDate

/-- `get_active_holidays(target_date)`: the names of all exact holiday matches
followed by the names of all containing periods, in mapping order. -/
def getActiveHolidays (targetDate : Date) : List String :=
  let holidays := getMajorHolidays targetDate.year
  let active := (holidays.filter (fun x => x.2 == targetDate)).map (·.1)
  let periods := getHolidayPeriods targetDate.year
  active ++
    (periods.filter (fun x => dateLe x.2.1 targetDate && dateLe targetDate x.2.2)).map (·.1)

/-- `is_weekend(target_date)`: Saturday (5) or Sunday (6). -/
def isWeekend (targetDate : Date) : Bool := decide (5 ≤ targetDate.weekday)

/-! Entity registries (`simtom/core/entities.py`)

A Python `dict` is embedded as an insertion-ordered association list: lookup
finds the (unique) entry with the given key, assignment updates an existing
entry in place or appends a fresh one at the end, and `next(iter(d))` is the
first entry's key.  Entity attribute values are strings or integers. -/

inductive EVal where
  | str (s : String)
  | int (z : Int)
deriving DecidableEq, Repr

/-- `d.get(k)` / `d[k]` on an insertion-ordered dict. -/
def alookup : List (String × α) → String → Option α
  | [], _ => none
  | (k, v) :: rest, key => if k = key then some v else alookup rest key

/-- `k in d`. -/
def acontains (st : List (String × α)) (key : String) : Bool :=
  (alookup st key).isSome

/-- `d[k] = v`: update in place if the key exists, else append at the end. -/
def aset : List (String × α) → String → α → List (String × α)
  | [], key, v => [(key, v)]
  | (k, w) :: rest, key, v =>
    if k = key then (k, v) :: rest else (k, w) :: aset rest key v

/-- `EntityRegistry.register`: when the store holds `max_entities` or more
entries, delete the entry under `next(iter(self.entities))` — the first,
i.e. oldest-inserted, entry — then assign `entities[entity_id] = data`.
(When `max_entities = 0` the Python code would fault on `next(iter({}))` for
an empty store; the theorems below therefore assume `1 ≤ max_entities`.) -/
def regRegister (maxEntities : Nat) (st : List (String × α)) (entityId : String)
    (entityData : α) : List (String × α) :=
  let st1 := if maxEntities ≤ st.length then st.tail else st
  aset st1 entityId entityData

/-- `EntityRegistry.get_or_create`: return the cached entity unchanged, or
fabricate via `_generate_entity`, register, and return it. -/
def regGetOrCreate (gen : String → α) (maxEntities : Nat) (st : List (String × α))
    (entityId : String) : α × List (String × α) :=
  match alookup st entityId with
  | some v => (v, st)
  | none =>
    let entityData := gen entityId
    (entityData, regRegister maxEntities st entityId entityData)

/-- `EntityRegistry.count`. -/
def regCount (st : List (String × α)) : Nat := st.length

/-- `EntityRegistry.exists`. -/
def regExists (st : List (String × α)) (entityId : String) : Bool :=
  acontains st entityId

/-- One registry operation, for stating the capacity invariant over arbitrary
operation sequences. -/
inductive RegistryOp (α : Type) where
  | getOrCreate (id : String)
  | register (id : String) (v : α)

def applyRegistryOp (gen : String → α) (maxEntities : Nat)
    (st : List (String × α)) : RegistryOp α → List (String × α)
  | .getOrCreate id => (regGetOrCreate gen maxEntities st id).2
  | .register id v => regRegister maxEntities st id v

def applyRegistryOps (gen : String → α) (maxEntities : Nat)
    (st : List (String × α)) (ops : List (RegistryOp α)) : List (String × α) :=
  ops.foldl (applyRegistryOp gen maxEntities) st

/-! Payment-method fabrication and `get_payment_method`
(`PaymentMethodRegistry._generate_entity` in `entities.py` and
`BaseEcommerceGenerator.get_payment_method` in `ecommerce/base.py`).
`random.choice(lst)` is embedded as indexing by an arbitrary draw reduced
modulo the population size; `fake.date_between` is an arbitrary ordinal. -/

def bnplProviders : List String := ["affirm", "klarna", "afterpay", "sezzle"]

def pmCreditLimits : List Int := [500, 1000, 1500, 2500, 5000]

/-- `payment_method_id.split('_')[0] if '_' in payment_method_id else ...`. -/
def pmCustomerId (pmId : String) : String :=
  if pmId.contains '_' then (pmId.splitOn "_").headD pmId else pmId

def generatePaymentMethodEntity (pmId : String)
    (providerDraw limitDraw dateDraw : Nat) : List (String × EVal) :=
  [("payment_method_id", .str pmId),
   ("customer_id", .str (pmCustomerId pmId)),
   ("type", .str "bnpl_account"),
   ("provider", .str (bnplProviders.getD (providerDraw % 4) "affirm")),
   ("credit_limit", .int (pmCreditLimits.getD (limitDraw % 5) 500)),
   ("creation_date", .int (Int.ofNat dateDraw))]

/-- `random.randint(a, b)` (both bounds inclusive) for an arbitrary draw. -/
def simtomRandint (a b draw : Nat) : Nat := a + draw % (b - a + 1)

/-- Decimal rendering of a natural number (what a Python f-string prints),
written with explicit fuel so that it reduces inside the kernel. -/
def natToDecAux : Nat → Nat → String
  | 0, _ => ""
  | fuel + 1, n =>
    if n = 0 then ""
    else natToDecAux fuel (n / 10) ++
      String.singleton (Char.ofNat (48 + n % 10))

def natToDecString (n : Nat) : String :=
  if n = 0 then "0" else natToDecAux (n + 1) n

/-- `f"{customer_id}_pm_{random.randint(1, 3)}"`. -/
def paymentMethodId (customerId : String) (pmDraw : Nat) : String :=
  customerId ++ "_pm_" ++ natToDecString (simtomRandint 1 3 pmDraw)

/-- `get_payment_method(customer_id, require_bnpl)`: fetch-or-create the
payment method, then — when BNPL is required — assign
`payment_method["type"] = "bnpl_account"`.  The assignment mutates the dict
object stored in the registry, so the embedding writes the updated entity
back into the store. -/
def getPaymentMethod (maxEntities : Nat) (st : List (String × List (String × EVal)))
    (customerId : String) (pmDraw providerDraw limitDraw dateDraw : Nat)
    (requireBnpl : Bool) :
    List (String × EVal) × List (String × List (String × EVal)) :=
  let pmId := paymentMethodId customerId pmDraw
  let r := regGetOrCreate
    (fun i => generatePaymentMethodEntity i providerDraw limitDraw dateDraw)
    maxEntities st pmId
  if requireBnpl then
    let pm2 := aset r.1 "type" (.str "bnpl_account")
    (pm2, aset r.2 pmId pm2)
  else r

/-! Seeding behaviour (`EntityRegistry.__init__` and
`BNPLGenerator._calculate_statistical_daily_volume`)

`EntityRegistry.__init__` runs `if seed: fake.seed_instance(seed);
random.seed(seed)` — the Python truthiness test, under which `0` behaves like
`None`.  The per-day volume model runs
`random.seed(self.config.seed + target_date.toordinal() if self.config.seed
else None)` (and likewise for `np.random.seed`). -/

/-- The seed actually applied to the fake-data generator and to the global
random generator at registry construction (`none` = left unseeded). -/
def registryAppliedSeed (seed : Option Int) : Option Int :=
  match seed with
  | none => none
  | some s => if s ≠ 0 then some s else none

/-- The argument passed to `random.seed` / `np.random.seed` for one day of the
historical volume calculation (`none` = `None`, i.e. reseed from entropy). -/
def dailyVolumeSeed (seed : Option Int) (dayOrdinal : Int) : Option Int :=
  match seed with
  | none => none
  | some s => if s ≠ 0 then some (s + dayOrdinal) else none

/-! Configuration validation (`GeneratorConfig` in `simtom/core/generator.py`)

Pydantic runs the declared field bounds and the `validate_date_range`
validator while the configuration object is being constructed; a violation
raises a validation error, so no `GeneratorConfig` value — and hence no
generator, which is constructed from one — ever exists for invalid input. -/

structure GeneratorConfig where
  startDate : Option Date
  endDate : Option Date
  maxRecords : Option Nat
  baseDailyVolume : Nat
  seed : Option Int

/-- The `validate_date_range` validator: with both dates present,
`end_date < start_date` and a span of more than 365 days are rejected. -/
def validateDateRange (startDate endDate : Option Date) : Except String Unit :=
  match startDate, endDate with
  | some s, some e =>
    if dateLt e s then .error "end_date must be >= start_date"
    else if 365 < e.toOrd - s.toOrd then .error "date range cannot exceed 365 days"
    else .ok ()
  | _, _ => .ok ()

/-- The `ge=1` bound on the optional `max_records` field. -/
def maxRecordsInvalid : Option Nat → Bool
  | some m => m < 1
  | none => false

/-- Constructing a `GeneratorConfig`: the declared `ge=1` bounds on
`base_daily_volume` and `max_records`, then the date-range validator. -/
def mkGeneratorConfig (startDate endDate : Option Date) (maxRecords : Option Nat)
    (baseDailyVolume : Nat) (seed : Option Int) : Except String GeneratorConfig :=
  if baseDailyVolume < 1 then .error "base_daily_volume must be >= 1"
  else if maxRecordsInvalid maxRecords then .error "max_records must be >= 1"
  else
    match validateDateRange startDate endDate with
    | .error msg => .error msg
    | .ok _ => .ok ⟨startDate, endDate, maxRecords, baseDailyVolume, seed⟩

/-! BNPL risk scoring and default simulation
(`simtom/generators/ecommerce/bnpl.py`)

Float arithmetic is idealized as exact rational arithmetic.  Each
`{...}.get(x, default)` table lookup becomes a total function on strings with
the same default. -/

def creditRiskOf (creditScoreRange : String) : ℚ :=
  if creditScoreRange = "excellent" then 0.1
  else if creditScoreRange = "good" then 0.3
  else if creditScoreRange = "fair" then 0.6
  else if creditScoreRange = "poor" then 0.9
  else 0.5

def verificationRiskOf (verificationLevel : String) : ℚ :=
  if verificationLevel = "verified" then 0.1
  else if verificationLevel = "partial" then 0.4
  else if verificationLevel = "unverified" then 0.8
  else 0.5

def incomeRiskOf (incomeBracket : String) : ℚ :=
  if incomeBracket = "100k+" then 0.1
  else if incomeBracket = "75k-100k" then 0.2
  else if incomeBracket = "50k-75k" then 0.3
  else if incomeBracket = "25k-50k" then 0.6
  else if incomeBracket = "<25k" then 0.8
  else 0.5

/-- `0.7 if not device["is_trusted"] else 0.2`. -/
def deviceRiskOf (isTrusted : Bool) : ℚ := if isTrusted then 0.2 else 0.7

def productRiskOf (riskCategory : String) : ℚ :=
  if riskCategory = "low" then 0.1
  else if riskCategory = "medium" then 0.3
  else if riskCategory = "high" then 0.6
  else 0.3

def scenarioRiskOf (scenario : String) : ℚ :=
  if scenario = "low_risk_purchase" then 0.1
  else if scenario = "impulse_purchase" then 0.4
  else if scenario = "credit_stretched" then 0.7
  else if scenario = "high_risk_behavior" then 0.9
  else 0.3

/-- `_calculate_risk_score`: the 30/20/20/10/10/10-weighted average of the six
factors, scaled by `(1 + economic_stress_factor * 0.2)` and capped at 1. -/
def calculateRiskScore (creditScoreRange verificationLevel incomeBracket : String)
    (deviceTrusted : Bool) (productRiskCategory scenario : String)
    (economicStressFactor : ℚ) : ℚ :=
  let score :=
    creditRiskOf creditScoreRange * 0.3 +
    verificationRiskOf verificationLevel * 0.2 +
    incomeRiskOf incomeBracket * 0.2 +
    deviceRiskOf deviceTrusted * 0.1 +
    productRiskOf productRiskCategory * 0.1 +
    scenarioRiskOf scenario * 0.1
  min (score * (1 + economicStressFactor * 0.2)) 1

/-- `_risk_level_from_score` (the `BNPLRiskLevel` values are strings). -/
def riskLevelFromScore (riskScore : ℚ) : String :=
  if riskScore < 0.3 then "low"
  else if riskScore < 0.6 then "medium"
  else if riskScore < 0.8 then "high"
  else "very_high"

/-- `_select_installment_count` (`random.choice` over a two-element list is
indexing by an arbitrary draw mod 2). -/
def selectInstallmentCount (amount : ℚ) (choiceDraw : Nat) : Nat :=
  if amount < 100 then 4
  else if amount < 500 then [4, 6].getD (choiceDraw % 2) 4
  else if amount < 1000 then [6, 12].getD (choiceDraw % 2) 6
  else [12, 24].getD (choiceDraw % 2) 12

/-- Rounding of an exact value to the nearest integer, ties to even, as
Python's `round` does on exact halves. -/
def roundHalfEven (x : ℚ) : Int :=
  let f := ⌊x⌋
  let r := x - f
  if r < 1 / 2 then f
  else if 1 / 2 < r then f + 1
  else if f % 2 = 0 then f else f + 1

/-- `_calculate_first_payment`: `round(amount * 0.25, 2)`. -/
def calculateFirstPayment (amount : ℚ) : ℚ :=
  (roundHalfEven (amount * 0.25 * 100) : ℚ) / 100

def checkoutSpeedForScenario (scenario : String) (choiceDraw : Nat) : String :=
  if scenario = "low_risk_purchase" then ["normal", "slow"].getD (choiceDraw % 2) "normal"
  else if scenario = "impulse_purchase" then "fast"
  else if scenario = "credit_stretched" then "normal"
  else if scenario = "high_risk_behavior" then "very_fast"
  else "normal"

def priceComparisonTime (scenario : String) (draw : Nat) : Nat :=
  if scenario = "impulse_purchase" then simtomRandint 0 60 draw
  else if scenario = "high_risk_behavior" then simtomRandint 0 30 draw
  else simtomRandint 60 300 draw

def timeOnSiteForScenario (scenario : String) (draw : Nat) : Nat :=
  if scenario = "high_risk_behavior" then simtomRandint 30 120 draw
  else if scenario = "impulse_purchase" then simtomRandint 120 300 draw
  else if scenario = "credit_stretched" then simtomRandint 300 600 draw
  else simtomRandint 180 900 draw

/-- `_add_individual_variation`: the sampled `np.random.normal(expected, 0.01)`
value is the oracle `normalSample` (its mean parameter only shapes the
distribution, not the support), clamped to `[0.001, 0.25]`. -/
def addIndividualVariation (normalSample : ℚ) : ℚ :=
  max 0.001 (min 0.25 normalSample)

/-- `_simulate_default`: `random.random() < actual_default_rate`.  The
Beta-percentile expected rate (`_get_population_default_rate`) only sets the
mean of the normal draw, which is already absorbed into `normalSample`. -/
def simulateDefault (uniformDraw normalSample : ℚ) : Bool :=
  decide (uniformDraw < addIndividualVariation normalSample)

/-- `_create_universal_risk_pattern`. -/
def createUniversalRiskPattern (numPeriods : Nat) : List ℚ :=
  if numPeriods = 0 then [1]
  else if numPeriods = 1 then [1]
  else if numPeriods = 2 then [0.3, 0.7]
  else if numPeriods ≤ 4 then ([0.2, 0.4, 0.3, 0.1].take numPeriods)
  else
    (List.range numPeriods).map (fun i =>
      let position : ℚ := (i : ℚ) / ((numPeriods : ℚ) - 1)
      let riskLevel :=
        if position ≤ 0.5 then 0.1 + position * 1.6
        else 0.9 - (position - 0.5) * 1.6
      max 0.05 riskLevel)

/-- `_days_to_missed_payment`: weights are computed exactly as in the source;
the weighted `random.choices` draw is embedded as picking an arbitrary member
of `possible_periods` (any index mod the population size), then
`days = period * 14` with the robustness floor at 14. -/
def daysToMissedPayment (riskScore : ℚ) (installmentCount : Nat)
    (choiceDraw : Nat) : Int :=
  let possiblePeriods := (List.range installmentCount).map (fun i => i + 1)
  let basePattern := createUniversalRiskPattern possiblePeriods.length
  let riskMultiplier := 0.5 + riskScore * 1.5
  let scaledWeights := basePattern.map (fun w => w * riskMultiplier)
  let totalWeight := scaledWeights.sum
  let _finalWeights :=
    if totalWeight ≤ 0 then
      possiblePeriods.map (fun _ => (1 : ℚ) / possiblePeriods.length)
    else scaledWeights.map (fun w => w / totalWeight)
  let chosenPeriod : Nat := possiblePeriods.getD (choiceDraw % possiblePeriods.length) 1
  let days := Int.ofNat chosenPeriod * 14
  if days < 14 then 14 else days

/-- The pseudo-random draws consumed by `_add_risk_indicators` and its
callees, one oracle per `random`/`numpy` call. -/
structure RiskDraws where
  installmentDraw : Nat
  speedDraw : Nat
  cartDraw : Nat
  priceDraw : Nat
  siteDraw : Nat
  uniformDraw : ℚ
  normalSample : ℚ
  periodDraw : Nat

/-- The fields `_add_risk_indicators` adds to the transaction
(`transaction.update({...})` plus the conditional
`days_to_first_missed_payment`). -/
structure RiskIndicators where
  riskScenario : String
  riskScore : ℚ
  riskLevel : String
  installmentCount : Nat
  firstPaymentAmount : ℚ
  paymentFrequency : String
  purchaseContext : String
  checkoutSpeed : String
  cartAbandonmentCount : Nat
  priceComparisonTime : Nat
  timeOnSiteSeconds : Nat
  economicStressFactor : ℚ
  willDefault : Bool
  daysToFirstMissedPayment : Option Int

/-- `_add_risk_indicators`.  `purchaseContextIn`/`timeOnSiteIn` are the values
a scenario adjustment may already have put on the transaction
(`transaction.get(key, default)`). -/
def addRiskIndicators (creditScoreRange verificationLevel incomeBracket : String)
    (deviceTrusted : Bool) (productRiskCategory scenario : String)
    (amount : ℚ) (purchaseContextIn : Option String) (timeOnSiteIn : Option Nat)
    (economicStressFactor : ℚ) (draws : RiskDraws) : RiskIndicators :=
  let riskScore := calculateRiskScore creditScoreRange verificationLevel
    incomeBracket deviceTrusted productRiskCategory scenario economicStressFactor
  let installments := selectInstallmentCount amount draws.installmentDraw
  let willDefault := simulateDefault draws.uniformDraw draws.normalSample
  { riskScenario := scenario
    riskScore := riskScore
    riskLevel := riskLevelFromScore riskScore
    installmentCount := installments
    firstPaymentAmount := calculateFirstPayment amount
    paymentFrequency := "bi_weekly"
    purchaseContext := purchaseContextIn.getD "normal"
    checkoutSpeed := checkoutSpeedForScenario scenario draws.speedDraw
    cartAbandonmentCount := simtomRandint 0 3 draws.cartDraw
    priceComparisonTime := priceComparisonTime scenario draws.priceDraw
    timeOnSiteSeconds := timeOnSiteIn.getD (timeOnSiteForScenario scenario draws.siteDraw)
    economicStressFactor := economicStressFactor
    willDefault := willDefault
    daysToFirstMissedPayment :=
      if willDefault then
        some (daysToMissedPayment riskScore installments draws.periodDraw)
      else none }

/-! Historical volume model and timestamp synthesis (`bnpl.py`)

A `datetime` is embedded as the natural number
`toordinal(date) * 86400 + second-of-day`; `datetime` comparison is then
numeric comparison, and the calendar day of a timestamp is division
by 86400. -/

/-- The calendar day (Python `timestamp.date()`, as an ordinal) of an embedded
timestamp. -/
def dayOf (t : Nat) : Nat := t / 86400

/-- `_get_day_of_week_multiplier`. -/
def getDayOfWeekMultiplier (dateObj : Date) : ℚ :=
  let w := dateObj.weekday
  if w = 0 then 1.15
  else if w = 1 then 1.10
  else if w = 2 then 1.05
  else if w = 3 then 1.10
  else if w = 4 then 1.25
  else if w = 5 then 0.85
  else 0.70

/-- `_get_week_of_month_multiplier`. -/
def getWeekOfMonthMultiplier (dateObj : Date) : ℚ :=
  if dateObj.day ≤ 7 then 1.15
  else if dateObj.day ≤ 14 then 0.95
  else if dateObj.day ≤ 21 then 1.10
  else 0.90

/-- `_get_month_of_year_multiplier` (months of valid dates are 1–12). -/
def getMonthOfYearMultiplier (dateObj : Date) : ℚ :=
  ([0.75, 0.85, 0.95, 1.00, 1.00, 1.05, 1.05, 1.05, 1.00, 1.05, 1.10, 1.20] :
    List ℚ).getD (dateObj.month - 1).toNat 1

/-- The `event_multipliers` table of `_get_special_event_multiplier`. -/
def eventMultipliers : List (String × ℚ) :=
  [("black_friday", 1.6), ("cyber_monday", 1.4),
   ("christmas_day", 0.1), ("christmas_eve", 0.3),
   ("new_years_day", 0.2), ("new_years_eve", 0.4), ("thanksgiving", 0.2),
   ("valentines_day", 1.15), ("mothers_day", 1.2), ("fathers_day", 1.1),
   ("halloween", 1.05), ("labor_day", 1.05), ("independence_day", 0.8),
   ("year_end_holidays", 0.5), ("christmas_shopping", 1.2),
   ("post_christmas", 1.3), ("black_friday_week", 1.3),
   ("valentines_week", 1.1), ("mothers_day_week", 1.15),
   ("back_to_school", 1.2), ("summer_holidays", 1.0)]

/-- Python `min(nonempty list)` / `max(nonempty list)` (the defaults are never
reached on the call sites below, where the lists are nonempty). -/
def listMinQ : List ℚ → ℚ
  | [] => 1
  | x :: xs => xs.foldl min x

def listMaxQ : List ℚ → ℚ
  | [] => 1
  | x :: xs => xs.foldl max x

/-- `_get_special_event_multiplier`. -/
def getSpecialEventMultiplier (dateObj : Date) : ℚ :=
  let activeHolidays := getActiveHolidays dateObj
  if activeHolidays.isEmpty then 1
  else
    let multipliers := activeHolidays.map (fun h => (eventMultipliers.lookup h).getD 1)
    let suppressive := multipliers.filter (fun m => m < 1)
    if ¬ suppressive.isEmpty then listMinQ suppressive else listMaxQ multipliers

/-- Python `int(x)`: truncation toward zero. -/
def truncQ (q : ℚ) : Int := if 0 ≤ q then ⌊q⌋ else -⌊-q⌋

/-- `_calculate_statistical_daily_volume`: the four deterministic multipliers,
one log-normal noise draw (the oracle `noiseFactor` — any positive sample is
possible), truncated and floored at 1.  (The `random.seed`/`np.random.seed`
calls at the top of the function are modelled by `dailyVolumeSeed`.) -/
def calculateStatisticalDailyVolume (baseVolume : Nat) (targetDate : Date)
    (noiseFactor : ℚ) : Nat :=
  let totalMultiplier :=
    getDayOfWeekMultiplier targetDate * getWeekOfMonthMultiplier targetDate *
    getMonthOfYearMultiplier targetDate * getSpecialEventMultiplier targetDate
  let finalVolume := truncQ ((baseVolume : ℚ) * totalMultiplier * noiseFactor)
  (max 1 finalVolume).toNat

/-- The raw draws consumed by `_generate_simple_datetime` for one timestamp:
one `random.random()` and the `randint`/`choice` draws. -/
structure TimeDraws where
  r : ℚ
  hourDraw1 : Nat
  hourDraw2 : Nat
  hourDraw3 : Nat
  minuteDraw : Nat
  secondDraw : Nat

/-- `_generate_business_hour`: 70% business hours 9–17, 20% evening 18–22,
10% a choice from `list(range(23, 24)) + list(range(0, 9))`. -/
def generateBusinessHour (d : TimeDraws) : Nat :=
  if d.r < 0.7 then simtomRandint 9 17 d.hourDraw1
  else if d.r < 0.9 then simtomRandint 18 22 d.hourDraw2
  else ([23, 0, 1, 2, 3, 4, 5, 6, 7, 8] : List Nat).getD (d.hourDraw3 % 10) 23

/-- `_generate_simple_datetime`: `datetime.combine(target_date, time(h, m, s))`
for the given day ordinal. -/
def generateSimpleDatetime (dayOrd : Nat) (d : TimeDraws) : Nat :=
  dayOrd * 86400 + generateBusinessHour d * 3600 +
    simtomRandint 0 59 d.minuteDraw * 60 + simtomRandint 0 59 d.secondDraw

/-- The day loop of `_generate_volume_aware_timestamps` (before the final
`sorted(...)`): for every day of the inclusive window, `daily_volume`
timestamps on that day. -/
def generateVolumeAwareTimestampsRaw (baseVolume : Nat) (noise : Nat → ℚ)
    (draws : Nat → Nat → TimeDraws) (currentDay endDay : Nat) : List Nat :=
  if currentDay ≤ endDay then
    (List.range (calculateStatisticalDailyVolume baseVolume (Date.ofOrd currentDay)
        (noise currentDay))).map
      (fun j => generateSimpleDatetime currentDay (draws currentDay j)) ++
    generateVolumeAwareTimestampsRaw baseVolume noise draws (currentDay + 1) endDay
  else []
termination_by endDay + 1 - currentDay

/-- `_generate_volume_aware_timestamps`: the raw per-day timestamps, sorted
ascending (Python's stable `sorted`). -/
def generateVolumeAwareTimestamps (baseVolume : Nat) (noise : Nat → ℚ)
    (draws : Nat → Nat → TimeDraws) (startDay endDay : Nat) : List Nat :=
  List.insertionSort (· ≤ ·)
    (generateVolumeAwareTimestampsRaw baseVolume noise draws startDay endDay)

/-- `total_records` of `_generate_uniform_timestamps`: `max_records` if set,
else `base_daily_volume * total_days`. -/
def uniformTotalRecords (maxRecords : Option Nat) (baseVolume totalDays : Nat) : Nat :=
  match maxRecords with
  | some m => m
  | none => baseVolume * totalDays

/-- `day_progress = i / total_records; day_offset = int(day_progress *
total_days)` (float arithmetic idealized as exact rationals, `int()` as
truncation toward zero). -/
def uniformDayOffset (i totalRecords totalDays : Nat) : Nat :=
  (truncQ ((i : ℚ) / (totalRecords : ℚ) * (totalDays : ℚ))).toNat

/-- The record loop of `_generate_uniform_timestamps` (before the final
`sorted(...)`): `total_days = (end_date - start_date).days + 1` and one
timestamp per `i in range(total_records)`, each on
`start_date + timedelta(days=day_offset)`.  (The window of a validated
configuration always has `start_date ≤ end_date`; the embedding uses natural
subtraction for the day count.) -/
def generateUniformTimestampsRaw (maxRecords : Option Nat) (baseVolume : Nat)
    (draws : Nat → TimeDraws) (startDay endDay : Nat) : List Nat :=
  (List.range (uniformTotalRecords maxRecords baseVolume (endDay - startDay + 1))).map
    (fun i => generateSimpleDatetime
      (startDay + uniformDayOffset i
        (uniformTotalRecords maxRecords baseVolume (endDay - startDay + 1))
        (endDay - startDay + 1))
      (draws i))

/-- `_generate_uniform_timestamps`: the evenly spread timestamps, sorted
ascending. -/
def generateUniformTimestamps (maxRecords : Option Nat) (baseVolume : Nat)
    (draws : Nat → TimeDraws) (startDay endDay : Nat) : List Nat :=
  List.insertionSort (· ≤ ·)
    (generateUniformTimestampsRaw maxRecords baseVolume draws startDay endDay)

/-- `_generate_historical_timestamps`: the volume-aware branch when
`volume_variation_enabled` (the default), else the legacy uniform branch. -/
def generateHistoricalTimestamps (volumeVariationEnabled : Bool)
    (maxRecords : Option Nat) (baseVolume : Nat) (noise : Nat → ℚ)
    (volumeDraws : Nat → Nat → TimeDraws) (uniformDraws : Nat → TimeDraws)
    (startDay endDay : Nat) : List Nat :=
  if volumeVariationEnabled then
    generateVolumeAwareTimestamps baseVolume noise volumeDraws startDay endDay
  else
    generateUniformTimestamps maxRecords baseVolume uniformDraws startDay endDay

/-! Grouping by day and the streaming loops (`simtom/core/generator.py`) -/

/-- One step of `daily_batches[timestamp.date()].append(timestamp)` on a
`defaultdict(list)` embedded as an insertion-ordered association list. -/
def dictAppendTs (m : List (Nat × List Nat)) (d t : Nat) : List (Nat × List Nat) :=
  match m with
  | [] => [(d, [t])]
  | (k, g) :: rest =>
    if k = d then (k, g ++ [t]) :: rest else (k, g) :: dictAppendTs rest d t

/-- Ordering of day batches by their key, for `dict(sorted(items))`. -/
def keyLe (a b : Nat × List Nat) : Prop := a.1 ≤ b.1

instance : DecidableRel keyLe := fun a b => Nat.decLe a.1 b.1

instance : IsTotal (Nat × List Nat) keyLe := ⟨fun a b => Nat.le_total a.1 b.1⟩

instance : IsTrans (Nat × List Nat) keyLe := ⟨fun _ _ _ => Nat.le_trans⟩

/-- `_group_timestamps_by_day`: append every timestamp to its day's batch in
stream order, then sort the (distinct-keyed) batches by day. -/
def groupTimestampsByDay (l : List Nat) : List (Nat × List Nat) :=
  List.insertionSort keyLe (l.foldl (fun m t => dictAppendTs m (dayOf t) t) [])

/-- One streamed record: the payload produced by `generate_record` (after
noise/drift, both identity on metadata), plus the stamped metadata fields. -/
structure StreamRecord (α : Type) where
  payload : α
  timestamp : Nat
  recordId : Nat
  generator : String
deriving Repr, DecidableEq

/-- `self.config.max_records and self._records_generated >= max_records`
(Python truthiness: `None` and `0` are falsy; the config forbids 0 anyway). -/
def maxRecordsReached (maxRecords : Option Nat) (count : Nat) : Bool :=
  match maxRecords with
  | none => false
  | some m => if m = 0 then false else decide (m ≤ count)

/-- The inner (single-day) loop of `_stream_historical_batched`: stamp and
yield each timestamp of the batch, stopping everything — the `Bool` flag —
when the cap is reached.  Returns the records, the updated
`_records_generated`, and the early-return flag. -/
def streamDayBatch (gen : Nat → α) (name : String) (maxRecords : Option Nat) :
    Nat → List Nat → List (StreamRecord α) × Nat × Bool
  | count, [] => ([], count, false)
  | count, t :: ts =>
    if maxRecordsReached maxRecords count then ([], count, true)
    else
      let rest := streamDayBatch gen name maxRecords (count + 1) ts
      (⟨gen count, t, count, name⟩ :: rest.1, rest.2.1, rest.2.2)

/-- The outer loop of `_stream_historical_batched` over the ordered day
batches (the 1-second pause between days does not affect the record
sequence). -/
def streamHistoricalBatched (gen : Nat → α) (name : String)
    (maxRecords : Option Nat) : Nat → List (Nat × List Nat) → List (StreamRecord α)
  | _, [] => []
  | count, (_, ts) :: rest =>
    let r := streamDayBatch gen name maxRecords count ts
    if r.2.2 then r.1
    else r.1 ++ streamHistoricalBatched gen name maxRecords r.2.1 rest

/-- The full historical pipeline of the BNPL generator: pre-compute the
sorted historical timestamps — through the volume-aware branch when
`volume_variation_enabled`, else through the uniform branch — group them by
day, and stream the day batches. -/
def bnplHistoricalStream (gen : Nat → α) (name : String) (maxRecords : Option Nat)
    (volumeVariationEnabled : Bool) (baseVolume : Nat) (noise : Nat → ℚ)
    (volumeDraws : Nat → Nat → TimeDraws) (uniformDraws : Nat → TimeDraws)
    (startDay endDay : Nat) : List (StreamRecord α) :=
  streamHistoricalBatched gen name maxRecords 0
    (groupTimestampsByDay
      (generateHistoricalTimestamps volumeVariationEnabled maxRecords baseVolume
        noise volumeDraws uniformDraws startDay endDay))

/-- `_stream_realtime` for a configured `max_records = maxRecords ≥ 1` (with
`max_records` set, the loop breaks exactly when the counter reaches it; the
inter-record delays do not affect the record sequence).  `times` is the
timestamp oracle (`datetime.utcnow()` or the historical cursor). -/
def streamRealtimeFrom (gen : Nat → α) (times : Nat → Nat) (name : String)
    (maxRecords : Nat) (count : Nat) : List (StreamRecord α) :=
  if maxRecords ≤ count then []
  else ⟨gen count, times count, count, name⟩ ::
    streamRealtimeFrom gen times name maxRecords (count + 1)
termination_by maxRecords - count

/-! Theorems -/

/-- C6: constructing a `GeneratorConfig` with both dates present fails
(with a validation error, i.e. `InvalidConfiguration`) exactly when `end_date`
is earlier than `start_date` or the span exceeds 365 days; the failure happens
inside `mkGeneratorConfig`, so no configuration value — and hence no
generator, which can only be built from one — exists in the failing cases. -/
theorem config_rejects_bad_date_range (s e : Date) (mr : Option Nat) (bdv : Nat)
    (sd : Option Int) (hbdv : 1 ≤ bdv) (hmr : ∀ m, mr = some m → 1 ≤ m) :
    (∃ msg, mkGeneratorConfig (some s) (some e) mr bdv sd = .error msg) ↔
      (dateLt e s = true ∨ 365 < e.toOrd - s.toOrd) := by
  have h1 : ¬ bdv < 1 := by omega
  have h2 : maxRecordsInvalid mr = false := by
    cases mr with
    | none => rfl
    | some m => have := hmr m rfl; simp [maxRecordsInvalid]; omega
  by_cases hlt : dateLt e s = true <;> by_cases hspan : 365 < e.toOrd - s.toOrd <;>
    simp [mkGeneratorConfig, validateDateRange, h1, h2, hlt, hspan]

/-- Witness for `config_rejects_bad_date_range`: a 2-day-backwards window is
rejected and a valid window is not. -/
theorem config_rejects_bad_date_range_witness :
    1 ≤ 1000 ∧
      (∃ msg, mkGeneratorConfig (some ⟨2024, 6, 3⟩) (some ⟨2024, 6, 1⟩) none 1000
        none = .error msg) :=
  ⟨by omega,
    (config_rejects_bad_date_range ⟨2024, 6, 3⟩ ⟨2024, 6, 1⟩ none 1000 none
      (by omega) (by intro m h; cases h)).2 (Or.inl (by decide))⟩

/-- C10: `seed = 0` is falsy in Python, so registry construction leaves
both the fake-data generator and the global random generator unseeded exactly
as with `seed = None`, and the per-day historical volume reseed passes `None`
instead of `seed + ordinal`; any nonzero seed is applied and reseeds per day
with `seed + ordinal`, which is what makes nonzero-seeded runs reproducible
and seed-0 runs not. -/
theorem seed_zero_behaves_as_unseeded :
    registryAppliedSeed (some 0) = none ∧ registryAppliedSeed none = none ∧
    (∀ d : Int, dailyVolumeSeed (some 0) d = none ∧ dailyVolumeSeed none d = none) ∧
    (∀ s : Int, s ≠ 0 → registryAppliedSeed (some s) = some s ∧
      ∀ d : Int, dailyVolumeSeed (some s) d = some (s + d)) := by
  refine ⟨rfl, rfl, fun d => ⟨rfl, rfl⟩, fun s hs => ⟨?_, fun d => ?_⟩⟩ <;>
    simp [registryAppliedSeed, dailyVolumeSeed, hs]

/-- Witness for `seed_zero_behaves_as_unseeded` at the nonzero seed 42. -/
theorem seed_zero_behaves_as_unseeded_witness :
    (42 : Int) ≠ 0 ∧ registryAppliedSeed (some 42) = some 42 ∧
      dailyVolumeSeed (some 42) 739038 = some (42 + 739038) :=
  ⟨by decide, (seed_zero_behaves_as_unseeded.2.2.2 42 (by decide)).1,
    (seed_zero_behaves_as_unseeded.2.2.2 42 (by decide)).2 739038⟩

/-- C8, counterexample: in 2024 the program's `mothers_day` holiday falls
on 2024-05-13, but `mothers_day_week` runs through 2024-05-14 — one day
*after* Mother's Day — so the period does not end on the day of Mother's Day
as claimed; 2024-05-14 lies in the period yet is strictly after the
holiday. -/
theorem mothers_day_week_end_counterexample :
    (getHolidayPeriods 2024).lookup "mothers_day_week" =
      some (⟨2024, 5, 10⟩, ⟨2024, 5, 14⟩) ∧
    lookupDate (getMajorHolidays 2024) "mothers_day" = ⟨2024, 5, 13⟩ ∧
    isHolidayPeriod ⟨2024, 5, 14⟩ "mothers_day_week" = true ∧
    dateLt (lookupDate (getMajorHolidays 2024) "mothers_day") ⟨2024, 5, 14⟩ = true := by
  refine ⟨by decide, by decide, by decide, by decide⟩

/-- C8, amended: for every year, the `mothers_day_week` period returned by
`get_holiday_periods` spans from 3 days before the `mothers_day` holiday
through 1 day *after* it, inclusive. -/
theorem mothers_day_week_span (year : Int) :
    (getHolidayPeriods year).lookup "mothers_day_week" =
      some ((lookupDate (getMajorHolidays year) "mothers_day").addDays (-3),
            (lookupDate (getMajorHolidays year) "mothers_day").addDays 1) := rfl

/-- C7: a name is returned by `get_active_holidays(d)` precisely when it
is the name of a holiday whose exact date is `d`, or of a holiday period
whose inclusive range contains `d` (several names can qualify at once). -/
theorem active_holidays_characterization (d : Date) (name : String) :
    name ∈ getActiveHolidays d ↔
      ((∃ hd, (name, hd) ∈ getMajorHolidays d.year ∧ hd = d) ∨
       (∃ p, (name, p) ∈ getHolidayPeriods d.year ∧
          dateLe p.1 d = true ∧ dateLe d p.2 = true)) := by
  unfold getActiveHolidays
  simp only [List.mem_append, List.mem_map, List.mem_filter, beq_iff_eq,
    Bool.and_eq_true]
  constructor
  · rintro (⟨⟨n, hd⟩, ⟨hmem, hdate⟩, hn⟩ | ⟨⟨n, p⟩, ⟨hmem, h1, h2⟩, hn⟩)
    · exact Or.inl ⟨hd, by simpa [← hn] using hmem, hdate⟩
    · exact Or.inr ⟨p, by simpa [← hn] using hmem, h1, h2⟩
  · rintro (⟨hd, hmem, hdate⟩ | ⟨p, hmem, h1, h2⟩)
    · exact Or.inl ⟨(name, hd), ⟨hmem, hdate⟩, rfl⟩
    · exact Or.inr ⟨(name, p), ⟨hmem, h1, h2⟩, rfl⟩

theorem aset_length_le (st : List (String × α)) (key : String) (v : α) :
    (aset st key v).length ≤ st.length + 1 := by
  induction st with
  | nil => simp [aset]
  | cons p rest ih =>
    obtain ⟨k, w⟩ := p
    by_cases h : k = key <;> simp [aset, h] <;> omega

theorem aset_eq_append (st : List (String × α)) (key : String) (v : α)
    (h : acontains st key = false) : aset st key v = st ++ [(key, v)] := by
  induction st with
  | nil => simp [aset]
  | cons p rest ih =>
    obtain ⟨k, w⟩ := p
    by_cases hk : k = key
    · simp [acontains, alookup, hk] at h
    · simp [acontains, alookup, hk] at h
      simp [aset, hk, ih (by simp [acontains, h])]

theorem aset_self (st : List (String × α)) (key : String) (v : α)
    (h : alookup st key = some v) : aset st key v = st := by
  induction st with
  | nil => simp [alookup] at h
  | cons p rest ih =>
    obtain ⟨k, w⟩ := p
    by_cases hk : k = key
    · simp only [alookup, if_pos hk, Option.some.injEq] at h
      simp [aset, hk, h]
    · simp only [alookup, if_neg hk] at h
      simp [aset, hk, ih h]

theorem regRegister_length_le (maxEntities : Nat) (hmax : 1 ≤ maxEntities)
    (st : List (String × α)) (h : st.length ≤ maxEntities) (id : String) (v : α) :
    (regRegister maxEntities st id v).length ≤ maxEntities := by
  unfold regRegister
  by_cases hc : maxEntities ≤ st.length
  · simp only [if_pos hc]
    have h2 := aset_length_le st.tail id v
    have h3 : st.tail.length = st.length - 1 := by cases st <;> simp_all
    omega
  · simp only [if_neg hc]
    have h2 := aset_length_le st id v
    omega

theorem applyRegistryOp_count_le (gen : String → α) (maxEntities : Nat)
    (hmax : 1 ≤ maxEntities) (st : List (String × α)) (h : st.length ≤ maxEntities)
    (op : RegistryOp α) : (applyRegistryOp gen maxEntities st op).length ≤ maxEntities := by
  cases op with
  | register id v =>
    simpa [applyRegistryOp] using regRegister_length_le maxEntities hmax st h id v
  | getOrCreate id =>
    simp only [applyRegistryOp, regGetOrCreate]
    cases hl : alookup st id with
    | some v => simpa using h
    | none => simpa using regRegister_length_le maxEntities hmax st h id (gen id)

theorem applyRegistryOps_count_le (gen : String → α) (maxEntities : Nat)
    (hmax : 1 ≤ maxEntities) (ops : List (RegistryOp α)) :
    ∀ st : List (String × α), st.length ≤ maxEntities →
      (applyRegistryOps gen maxEntities st ops).length ≤ maxEntities := by
  induction ops with
  | nil => intro st h; simpa [applyRegistryOps] using h
  | cons op rest ih =>
    intro st h
    simpa [applyRegistryOps] using
      ih _ (applyRegistryOp_count_le gen maxEntities hmax st h op)

/-- C5: (i) starting from an empty registry, any sequence of
`get_or_create`/`register` operations keeps the entry count within
`max_entities`; (ii) a `register` on a registry at capacity evicts exactly
the oldest-inserted (first) entry and appends the new one at the end;
(iii) concretely, with `max_entities = 3`, four distinct `get_or_create`
calls leave `count() == 3` and the first-created id no longer exists. -/
theorem registry_capacity_and_fifo_eviction (α : Type) :
    (∀ (gen : String → α) (maxEntities : Nat), 1 ≤ maxEntities →
       ∀ ops : List (RegistryOp α),
         regCount (applyRegistryOps gen maxEntities [] ops) ≤ maxEntities) ∧
    (∀ (st : List (String × α)) (maxEntities : Nat) (id : String) (v : α),
       1 ≤ maxEntities → st.length = maxEntities → acontains st.tail id = false →
       regRegister maxEntities st id v = st.tail ++ [(id, v)]) ∧
    (regCount (applyRegistryOps (fun i => [("customer_id", EVal.str i)]) 3 []
        [.getOrCreate "c1", .getOrCreate "c2", .getOrCreate "c3",
         .getOrCreate "c4"]) = 3 ∧
     regExists (applyRegistryOps (fun i => [("customer_id", EVal.str i)]) 3 []
        [.getOrCreate "c1", .getOrCreate "c2", .getOrCreate "c3",
         .getOrCreate "c4"]) "c1" = false) := by
  refine ⟨?_, ?_, by decide, by decide⟩
  · intro gen maxEntities hmax ops
    exact applyRegistryOps_count_le gen maxEntities hmax ops [] (by simp)
  · intro st maxEntities id v hmax hfull hc
    unfold regRegister
    rw [if_pos (by omega)]
    exact aset_eq_append st.tail id v hc

/-- Witness for `registry_capacity_and_fifo_eviction`: the capacity bound at
`max_entities = 2` after three creations, and a concrete eviction. -/
theorem registry_capacity_and_fifo_eviction_witness :
    regCount (applyRegistryOps (fun i => [("k", EVal.str i)]) 2 []
      [.getOrCreate "a", .getOrCreate "b", .getOrCreate "c"]) ≤ 2 ∧
    regRegister 2 [("a", (0 : Nat)), ("b", 1)] "c" 2 =
      [("a", (0 : Nat)), ("b", 1)].tail ++ [("c", 2)] :=
  ⟨(registry_capacity_and_fifo_eviction _).1 _ 2 (by omega) _,
   (registry_capacity_and_fifo_eviction Nat).2.1 [("a", 0), ("b", 1)] 2 "c" 2
     (by omega) (by decide) (by decide)⟩

/-- C9: lookups never mutate a stored entity: (i) `get_or_create` on an
existing id returns the store unchanged (`get`/`exists` are pure reads);
(ii) every fabricated payment-method entity already carries
`type = "bnpl_account"`; (iii) hence `get_payment_method` — even with
`require_bnpl = True`, whose write-through assignment rewrites the stored
`type` with the value it already has — leaves the store of an already-stored
payment-method id extensionally unchanged. -/
theorem entities_immutable_on_lookup :
    (∀ (α : Type) (gen : String → α) (maxEntities : Nat)
       (st : List (String × α)) (id : String),
       regExists st id = true → (regGetOrCreate gen maxEntities st id).2 = st) ∧
    (∀ (pmId : String) (a b c : Nat),
       alookup (generatePaymentMethodEntity pmId a b c) "type" =
         some (.str "bnpl_account")) ∧
    (∀ (maxEntities : Nat) (st : List (String × List (String × EVal)))
       (custId : String) (pmDraw a b c : Nat) (requireBnpl : Bool),
       regExists st (paymentMethodId custId pmDraw) = true →
       (∀ e, alookup st (paymentMethodId custId pmDraw) = some e →
          alookup e "type" = some (.str "bnpl_account")) →
       (getPaymentMethod maxEntities st custId pmDraw a b c requireBnpl).2 = st) := by
  have hgoc : ∀ (α : Type) (gen : String → α) (maxEntities : Nat)
      (st : List (String × α)) (id : String),
      regExists st id = true → (regGetOrCreate gen maxEntities st id).2 = st := by
    intro α gen maxEntities st id h
    unfold regExists acontains at h
    cases hl : alookup st id with
    | none => rw [hl] at h; simp at h
    | some v => simp [regGetOrCreate, hl]
  refine ⟨hgoc, fun pmId a b c => rfl, ?_⟩
  intro maxEntities st custId pmDraw a b c requireBnpl hex htype
  unfold getPaymentMethod
  unfold regExists acontains at hex
  cases hl : alookup st (paymentMethodId custId pmDraw) with
  | none => rw [hl] at hex; simp at hex
  | some e =>
    have hr : regGetOrCreate
        (fun i => generatePaymentMethodEntity i a b c) maxEntities st
        (paymentMethodId custId pmDraw) = (e, st) := by
      simp [regGetOrCreate, hl]
    cases requireBnpl with
    | false => simp [hr]
    | true =>
      have h1 : aset e "type" (.str "bnpl_account") = e :=
        aset_self e "type" _ (htype e hl)
      simp only [hr, h1]
      exact aset_self st _ e hl

/-- Witness for `entities_immutable_on_lookup`: a store holding one fabricated
payment method is left unchanged by a BNPL-requiring `get_payment_method`. -/
theorem entities_immutable_on_lookup_witness :
    regExists [(paymentMethodId "cust_000001" 0,
        generatePaymentMethodEntity (paymentMethodId "cust_000001" 0) 1 2 3)]
      (paymentMethodId "cust_000001" 0) = true ∧
    (getPaymentMethod 200000 [(paymentMethodId "cust_000001" 0,
        generatePaymentMethodEntity (paymentMethodId "cust_000001" 0) 1 2 3)]
      "cust_000001" 0 5 6 7 true).2 =
      [(paymentMethodId "cust_000001" 0,
        generatePaymentMethodEntity (paymentMethodId "cust_000001" 0) 1 2 3)] := by
  refine ⟨by simp [regExists, acontains, alookup],
    entities_immutable_on_lookup.2.2 200000 _ "cust_000001" 0 5 6 7 true
      (by simp [regExists, acontains, alookup]) ?_⟩
  intro e he
  simp only [alookup, if_pos, Option.some.injEq] at he
  subst he
  rfl

theorem daysToMissedPayment_ge_14 (riskScore : ℚ) (installmentCount draw : Nat) :
    14 ≤ daysToMissedPayment riskScore installmentCount draw := by
  unfold daysToMissedPayment
  dsimp only
  split <;> omega

/-- C1: on every record the BNPL generator produces — for any
configuration, entity attributes, scenario and pseudo-random draws —
`will_default` is true iff `days_to_first_missed_payment` is present as an
integer ≥ 14, and when `will_default` is false the field is null. -/
theorem bnpl_default_days_iff (creditScoreRange verificationLevel incomeBracket : String)
    (deviceTrusted : Bool) (productRiskCategory scenario : String) (amount : ℚ)
    (purchaseContextIn : Option String) (timeOnSiteIn : Option Nat)
    (economicStressFactor : ℚ) (draws : RiskDraws) :
    ((addRiskIndicators creditScoreRange verificationLevel incomeBracket
        deviceTrusted productRiskCategory scenario amount purchaseContextIn
        timeOnSiteIn economicStressFactor draws).willDefault = true ↔
      ∃ d : Int, (addRiskIndicators creditScoreRange verificationLevel incomeBracket
        deviceTrusted productRiskCategory scenario amount purchaseContextIn
        timeOnSiteIn economicStressFactor draws).daysToFirstMissedPayment = some d ∧
        14 ≤ d) ∧
    ((addRiskIndicators creditScoreRange verificationLevel incomeBracket
        deviceTrusted productRiskCategory scenario amount purchaseContextIn
        timeOnSiteIn economicStressFactor draws).willDefault = false →
      (addRiskIndicators creditScoreRange verificationLevel incomeBracket
        deviceTrusted productRiskCategory scenario amount purchaseContextIn
        timeOnSiteIn economicStressFactor draws).daysToFirstMissedPayment = none) := by
  dsimp only [addRiskIndicators]
  cases hb : simulateDefault draws.uniformDraw draws.normalSample with
  | true => simpa [hb] using daysToMissedPayment_ge_14 _ _ _
  | false => simp [hb]

theorem creditRiskOf_nonneg (s : String) : 0 ≤ creditRiskOf s := by
  unfold creditRiskOf; split_ifs <;> norm_num

theorem verificationRiskOf_nonneg (s : String) : 0 ≤ verificationRiskOf s := by
  unfold verificationRiskOf; split_ifs <;> norm_num

theorem incomeRiskOf_nonneg (s : String) : 0 ≤ incomeRiskOf s := by
  unfold incomeRiskOf; split_ifs <;> norm_num

theorem deviceRiskOf_nonneg (b : Bool) : 0 ≤ deviceRiskOf b := by
  unfold deviceRiskOf; split_ifs <;> norm_num

theorem productRiskOf_nonneg (s : String) : 0 ≤ productRiskOf s := by
  unfold productRiskOf; split_ifs <;> norm_num

theorem scenarioRiskOf_nonneg (s : String) : 0 ≤ scenarioRiskOf s := by
  unfold scenarioRiskOf; split_ifs <;> norm_num

/-- C2, counterexample: `economic_stress_factor` carries no bound in
`BNPLConfig`, and with the legal configuration value `-10` the generator
produces a record whose `risk_score` is negative — outside `[0, 1]` — already
for an ordinary low-risk customer. -/
theorem risk_score_out_of_range_counterexample :
    (addRiskIndicators "excellent" "verified" "100k+" true "low"
      "low_risk_purchase" 100 none none (-10) ⟨0, 0, 0, 0, 0, 0, 0, 0⟩).riskScore
      < 0 := by
  norm_num [addRiskIndicators, calculateRiskScore, creditRiskOf,
    verificationRiskOf, incomeRiskOf, deviceRiskOf, productRiskOf, scenarioRiskOf]

/-- C2, amended: on every record — with no restriction at all — `risk_level`
is the deterministic bucketing of `risk_score`: below 0.3 low, below 0.6
medium, below 0.8 high, else very_high; and whenever
`economic_stress_factor ≥ -5` — in particular throughout the documented range
`[0, 1]` and at the default `0` — the record's `risk_score` lies in
`[0, 1]`. -/
theorem risk_score_bounds_and_bucketing (creditScoreRange verificationLevel
    incomeBracket : String) (deviceTrusted : Bool)
    (productRiskCategory scenario : String) (amount : ℚ)
    (purchaseContextIn : Option String) (timeOnSiteIn : Option Nat)
    (economicStressFactor : ℚ) (draws : RiskDraws) :
    (-5 ≤ economicStressFactor →
      0 ≤ (addRiskIndicators creditScoreRange verificationLevel incomeBracket
        deviceTrusted productRiskCategory scenario amount purchaseContextIn
        timeOnSiteIn economicStressFactor draws).riskScore ∧
      (addRiskIndicators creditScoreRange verificationLevel incomeBracket
        deviceTrusted productRiskCategory scenario amount purchaseContextIn
        timeOnSiteIn economicStressFactor draws).riskScore ≤ 1) ∧
    ((addRiskIndicators creditScoreRange verificationLevel incomeBracket
        deviceTrusted productRiskCategory scenario amount purchaseContextIn
        timeOnSiteIn economicStressFactor draws).riskScore < 0.3 →
      (addRiskIndicators creditScoreRange verificationLevel incomeBracket
        deviceTrusted productRiskCategory scenario amount purchaseContextIn
        timeOnSiteIn economicStressFactor draws).riskLevel = "low") ∧
    (0.3 ≤ (addRiskIndicators creditScoreRange verificationLevel incomeBracket
        deviceTrusted productRiskCategory scenario amount purchaseContextIn
        timeOnSiteIn economicStressFactor draws).riskScore →
      (addRiskIndicators creditScoreRange verificationLevel incomeBracket
        deviceTrusted productRiskCategory scenario amount purchaseContextIn
        timeOnSiteIn economicStressFactor draws).riskScore < 0.6 →
      (addRiskIndicators creditScoreRange verificationLevel incomeBracket
        deviceTrusted productRiskCategory scenario amount purchaseContextIn
        timeOnSiteIn economicStressFactor draws).riskLevel = "medium") ∧
    (0.6 ≤ (addRiskIndicators creditScoreRange verificationLevel incomeBracket
        deviceTrusted productRiskCategory scenario amount purchaseContextIn
        timeOnSiteIn economicStressFactor draws).riskScore →
      (addRiskIndicators creditScoreRange verificationLevel incomeBracket
        deviceTrusted productRiskCategory scenario amount purchaseContextIn
        timeOnSiteIn economicStressFactor draws).riskScore < 0.8 →
      (addRiskIndicators creditScoreRange verificationLevel incomeBracket
        deviceTrusted productRiskCategory scenario amount purchaseContextIn
        timeOnSiteIn economicStressFactor draws).riskLevel = "high") ∧
    (0.8 ≤ (addRiskIndicators creditScoreRange verificationLevel incomeBracket
        deviceTrusted productRiskCategory scenario amount purchaseContextIn
        timeOnSiteIn economicStressFactor draws).riskScore →
      (addRiskIndicators creditScoreRange verificationLevel incomeBracket
        deviceTrusted productRiskCategory scenario amount purchaseContextIn
        timeOnSiteIn economicStressFactor draws).riskLevel = "very_high") := by
  dsimp only [addRiskIndicators]
  have h1 := creditRiskOf_nonneg creditScoreRange
  have h2 := verificationRiskOf_nonneg verificationLevel
  have h3 := incomeRiskOf_nonneg incomeBracket
  have h4 := deviceRiskOf_nonneg deviceTrusted
  have h5 := productRiskOf_nonneg productRiskCategory
  have h6 := scenarioRiskOf_nonneg scenario
  set x := calculateRiskScore creditScoreRange verificationLevel incomeBracket
    deviceTrusted productRiskCategory scenario economicStressFactor with hx
  have hbounds : -5 ≤ economicStressFactor → 0 ≤ x ∧ x ≤ 1 := by
    intro hstress
    rw [hx]
    unfold calculateRiskScore
    constructor
    · apply le_min _ (by norm_num)
      apply mul_nonneg
      · have p1 : 0 ≤ creditRiskOf creditScoreRange * 0.3 :=
          mul_nonneg h1 (by norm_num)
        have p2 : 0 ≤ verificationRiskOf verificationLevel * 0.2 :=
          mul_nonneg h2 (by norm_num)
        have p3 : 0 ≤ incomeRiskOf incomeBracket * 0.2 :=
          mul_nonneg h3 (by norm_num)
        have p4 : 0 ≤ deviceRiskOf deviceTrusted * 0.1 :=
          mul_nonneg h4 (by norm_num)
        have p5 : 0 ≤ productRiskOf productRiskCategory * 0.1 :=
          mul_nonneg h5 (by norm_num)
        have p6 : 0 ≤ scenarioRiskOf scenario * 0.1 :=
          mul_nonneg h6 (by norm_num)
        linarith
      · linarith
    · exact min_le_right _ _
  refine ⟨hbounds, ?_, ?_, ?_, ?_⟩ <;> unfold riskLevelFromScore
  · intro hlow; rw [if_pos hlow]
  · intro hge hlt; rw [if_neg (by linarith), if_pos hlt]
  · intro hge hlt; rw [if_neg (by linarith), if_neg (by linarith), if_pos hlt]
  · intro hge; rw [if_neg (by linarith), if_neg (by linarith), if_neg (by linarith)]

/-- Witness for `risk_score_bounds_and_bucketing` at the default stress 0. -/
theorem risk_score_bounds_and_bucketing_witness :
    (-5 : ℚ) ≤ 0 ∧
      0 ≤ (addRiskIndicators "poor" "unverified" "<25k" false "high"
        "high_risk_behavior" 100 none none 0 ⟨0, 0, 0, 0, 0, 0, 0, 0⟩).riskScore :=
  ⟨by norm_num,
    ((risk_score_bounds_and_bucketing "poor" "unverified" "<25k" false "high"
      "high_risk_behavior" 100 none none 0 ⟨0, 0, 0, 0, 0, 0, 0, 0⟩).1
      (by norm_num)).1⟩

/-! Characterizing the streaming loops

`stampFrom count ts` is the list of records obtained by stamping the
timestamps `ts` with consecutive `_record_id`s starting at `count`;
`takeCap maxRecords count` is the prefix the record cap leaves of a timestamp
sequence.  The two loops of `generator.py` are proved equal to
`stampFrom`/`takeCap` compositions, from which the claimed counting, ordering
and tagging properties follow. -/

def stampFrom (gen : Nat → α) (name : String) : Nat → List Nat → List (StreamRecord α)
  | _, [] => []
  | count, t :: ts => ⟨gen count, t, count, name⟩ :: stampFrom gen name (count + 1) ts

def takeCap (maxRecords : Option Nat) (count : Nat) (l : List Nat) : List Nat :=
  match maxRecords with
  | none => l
  | some m => if m = 0 then l else l.take (m - count)

theorem stampFrom_length (gen : Nat → α) (name : String) :
    ∀ (l : List Nat) (count : Nat), (stampFrom gen name count l).length = l.length := by
  intro l
  induction l with
  | nil => intro count; rfl
  | cons t ts ih => intro count; simp [stampFrom, ih]

theorem stampFrom_map_timestamp (gen : Nat → α) (name : String) :
    ∀ (l : List Nat) (count : Nat),
      (stampFrom gen name count l).map (·.timestamp) = l := by
  intro l
  induction l with
  | nil => intro count; rfl
  | cons t ts ih => intro count; simp [stampFrom, ih]

theorem stampFrom_map_recordId (gen : Nat → α) (name : String) :
    ∀ (l : List Nat) (count : Nat),
      (stampFrom gen name count l).map (·.recordId) = List.range' count l.length := by
  intro l
  induction l with
  | nil => intro count; rfl
  | cons t ts ih => intro count; simp [stampFrom, ih, List.range'_succ]

theorem stampFrom_generator (gen : Nat → α) (name : String) :
    ∀ (l : List Nat) (count : Nat) (r : StreamRecord α),
      r ∈ stampFrom gen name count l → r.generator = name := by
  intro l
  induction l with
  | nil => intro count r h; cases h
  | cons t ts ih =>
    intro count r h
    rcases List.mem_cons.mp h with rfl | h'
    · rfl
    · exact ih (count + 1) r h'

theorem stampFrom_append (gen : Nat → α) (name : String) :
    ∀ (l1 l2 : List Nat) (count : Nat),
      stampFrom gen name count (l1 ++ l2) =
        stampFrom gen name count l1 ++ stampFrom gen name (count + l1.length) l2 := by
  intro l1
  induction l1 with
  | nil => intro l2 count; simp [stampFrom]
  | cons t ts ih =>
    intro l2 count
    have harith : count + 1 + ts.length = count + (ts.length + 1) := by omega
    simp [stampFrom, ih, harith]

theorem takeCap_nil (mr : Option Nat) (count : Nat) : takeCap mr count [] = [] := by
  cases mr <;> simp [takeCap]

theorem takeCap_sublist (mr : Option Nat) (count : Nat) (l : List Nat) :
    (takeCap mr count l).Sublist l := by
  cases mr with
  | none => exact List.Sublist.refl l
  | some m =>
    by_cases hm : m = 0
    · simp [takeCap, hm]
    · simp only [takeCap, if_neg hm]
      exact List.take_sublist _ _

theorem takeCap_cons_of_not_reached (mr : Option Nat) (count t : Nat) (ts : List Nat)
    (h : maxRecordsReached mr count = false) :
    takeCap mr count (t :: ts) = t :: takeCap mr (count + 1) ts := by
  cases mr with
  | none => rfl
  | some m =>
    by_cases hm : m = 0
    · simp [takeCap, hm]
    · have hcm : count < m := by
        by_contra hc
        simp [maxRecordsReached, hm] at h
        omega
      have : m - count = (m - (count + 1)) + 1 := by omega
      simp only [takeCap, if_neg hm, this, List.take_succ_cons]

theorem takeCap_append (mr : Option Nat) (count : Nat) (ts L : List Nat) :
    takeCap mr count (ts ++ L) =
      if (takeCap mr count ts).length < ts.length then takeCap mr count ts
      else ts ++ takeCap mr (count + ts.length) L := by
  cases mr with
  | none => simp [takeCap]
  | some m =>
    by_cases hm : m = 0
    · simp [takeCap, hm]
    · simp only [takeCap, if_neg hm]
      rw [List.take_append_eq_append_take]
      by_cases hlt : (ts.take (m - count)).length < ts.length
      · rw [if_pos hlt]
        have h0 : m - count - ts.length = 0 := by
          simp [List.length_take] at hlt; omega
        simp [h0]
      · rw [if_neg hlt]
        have h1 : ts.length ≤ m - count := by
          simp [List.length_take] at hlt; omega
        rw [List.take_of_length_le h1]
        have h2 : m - count - ts.length = m - (count + ts.length) := by omega
        rw [h2]

theorem streamDayBatch_eq (gen : Nat → α) (name : String) (mr : Option Nat) :
    ∀ (ts : List Nat) (count : Nat),
      streamDayBatch gen name mr count ts =
        (stampFrom gen name count (takeCap mr count ts),
         count + (takeCap mr count ts).length,
         decide ((takeCap mr count ts).length < ts.length)) := by
  intro ts
  induction ts with
  | nil => intro count; simp [streamDayBatch, takeCap_nil, stampFrom]
  | cons t ts ih =>
    intro count
    by_cases hcap : maxRecordsReached mr count = true
    · obtain ⟨m, hmr, hm0, hmc⟩ : ∃ m, mr = some m ∧ m ≠ 0 ∧ m ≤ count := by
        cases mr with
        | none => simp [maxRecordsReached] at hcap
        | some m =>
          by_cases h0 : m = 0
          · simp [maxRecordsReached, h0] at hcap
          · exact ⟨m, rfl, h0, by simpa [maxRecordsReached, h0] using hcap⟩
      subst hmr
      have htc : takeCap (some m) count (t :: ts) = [] := by
        have : m - count = 0 := by omega
        simp [takeCap, hm0, this]
      simp [streamDayBatch, hcap, htc, stampFrom]
    · rw [Bool.not_eq_true] at hcap
      simp only [streamDayBatch, hcap, Bool.false_eq_true, if_false,
        takeCap_cons_of_not_reached mr count t ts hcap, ih (count + 1)]
      simp only [Prod.mk.injEq, List.length_cons]
      refine ⟨by simp [stampFrom], by omega, ?_⟩
      rw [decide_eq_decide]
      omega

theorem streamHistoricalBatched_eq (gen : Nat → α) (name : String) (mr : Option Nat) :
    ∀ (bs : List (Nat × List Nat)) (count : Nat),
      streamHistoricalBatched gen name mr count bs =
        stampFrom gen name count (takeCap mr count (bs.flatMap (·.2))) := by
  intro bs
  induction bs with
  | nil => intro count; simp [streamHistoricalBatched, takeCap_nil, stampFrom]
  | cons b rest ih =>
    obtain ⟨d, ts⟩ := b
    intro count
    simp only [streamHistoricalBatched, streamDayBatch_eq, List.flatMap_cons,
      takeCap_append, decide_eq_true_eq]
    by_cases hlt : (takeCap mr count ts).length < ts.length
    · rw [if_pos hlt, if_pos hlt]
    · have hts : takeCap mr count ts = ts := by
        refine (takeCap_sublist mr count ts).eq_of_length ?_
        have h := (takeCap_sublist mr count ts).length_le
        omega
      rw [if_neg hlt, if_neg hlt, ih, stampFrom_append, hts]

theorem streamRealtimeFrom_spec (gen : Nat → α) (times : Nat → Nat) (name : String) :
    ∀ (k N count : Nat), k = N - count →
      streamRealtimeFrom gen times name N count =
        stampFrom gen name count ((List.range' count k).map times) := by
  intro k
  induction k with
  | zero =>
    intro N count hk
    rw [streamRealtimeFrom]
    rw [if_pos (by omega)]
    rfl
  | succ k ih =>
    intro N count hk
    rw [streamRealtimeFrom]
    rw [if_neg (by omega)]
    rw [List.range'_succ]
    simp only [List.map_cons, stampFrom]
    rw [ih N (count + 1) (by omega)]

/-- C3, counterexample: a BNPL generator in historical mode over the
single day 2024-06-01 (ordinal 739038) with `base_daily_volume = 1` and
`max_records = 2` produces exactly 1 record, not 2 — in historical mode
`max_records` is only an upper cap, and the pre-generated timestamps can be
fewer. -/
theorem historical_stream_undershoots_max_records :
    (bnplHistoricalStream (fun _ => (0 : Nat)) "BNPLGenerator" (some 2) true 1
      (fun _ => 1) (fun _ _ => ⟨0, 0, 0, 0, 0, 0⟩) (fun _ => ⟨0, 0, 0, 0, 0, 0⟩)
      739038 739038).length = 1 ∧
    1 ≠ 2 := by
  have hdate : Date.ofOrd 739038 = ⟨2024, 6, 1⟩ := by decide
  have hdow : getDayOfWeekMultiplier ⟨2024, 6, 1⟩ = 0.85 := by
    have hw : Date.weekday ⟨2024, 6, 1⟩ = 5 := by decide
    unfold getDayOfWeekMultiplier
    rw [hw]
    norm_num
  have hwom : getWeekOfMonthMultiplier ⟨2024, 6, 1⟩ = 1.15 := by
    unfold getWeekOfMonthMultiplier
    norm_num
  have hmoy : getMonthOfYearMultiplier ⟨2024, 6, 1⟩ = 1.05 := by
    unfold getMonthOfYearMultiplier
    rw [show ((⟨2024, 6, 1⟩ : Date).month - 1).toNat = 5 from by decide]
    norm_num [List.getD]
  have hev : getSpecialEventMultiplier ⟨2024, 6, 1⟩ = 1 := by
    unfold getSpecialEventMultiplier
    rw [show getActiveHolidays ⟨2024, 6, 1⟩ = [] from by decide]
    rfl
  have hvol : calculateStatisticalDailyVolume 1 (Date.ofOrd (739038 : Nat)) 1 = 1 := by
    rw [show Date.ofOrd ((739038 : Nat) : Int) = ⟨2024, 6, 1⟩ from hdate]
    unfold calculateStatisticalDailyVolume
    dsimp only
    rw [hdow, hwom, hmoy, hev]
    have hq : ((1 : Nat) : ℚ) * (0.85 * 1.15 * 1.05 * 1) * 1 = 8211 / 8000 := by
      norm_num
    rw [hq]
    unfold truncQ
    rw [if_pos (by norm_num)]
    rw [show ⌊(8211 / 8000 : ℚ)⌋ = 1 from by rw [Int.floor_eq_iff] <;> norm_num]
    simp
  have hts : generateVolumeAwareTimestamps 1 (fun _ => 1)
      (fun _ _ => ⟨0, 0, 0, 0, 0, 0⟩) 739038 739038 = [63852915600] := by
    unfold generateVolumeAwareTimestamps
    rw [generateVolumeAwareTimestampsRaw, if_pos (by omega), hvol]
    rw [generateVolumeAwareTimestampsRaw, if_neg (by omega)]
    have hsd : generateSimpleDatetime 739038 ⟨0, 0, 0, 0, 0, 0⟩ = 63852915600 := by
      unfold generateSimpleDatetime generateBusinessHour simtomRandint
      rw [if_pos (by norm_num : (0 : ℚ) < 0.7)]
      decide
    simp [hsd, List.insertionSort, List.orderedInsert]
  unfold bnplHistoricalStream generateHistoricalTimestamps
  rw [if_pos rfl, hts]
  exact ⟨by decide, by decide⟩

/-- C3, amended: in real-time mode a generator configured with
`max_records = N ≥ 1` yields exactly `N` records; in historical day-batched
mode it yields exactly `min N T` records, where `T` is the number of
pre-generated historical timestamps.  In both modes the `_record_id` values
are `0, 1, 2, …` in exactly that order and every record carries the
generator's name in `_generator`. -/
theorem stream_count_ids_and_tagging (α : Type) :
    (∀ (gen : Nat → α) (times : Nat → Nat) (name : String) (N : Nat), 1 ≤ N →
       (streamRealtimeFrom gen times name N 0).length = N ∧
       (streamRealtimeFrom gen times name N 0).map (·.recordId) = List.range N ∧
       ∀ r ∈ streamRealtimeFrom gen times name N 0, r.generator = name) ∧
    (∀ (gen : Nat → α) (name : String) (N : Nat) (bs : List (Nat × List Nat)),
       1 ≤ N →
       (streamHistoricalBatched gen name (some N) 0 bs).length =
         min N ((bs.flatMap (·.2)).length) ∧
       (streamHistoricalBatched gen name (some N) 0 bs).map (·.recordId) =
         List.range (min N ((bs.flatMap (·.2)).length)) ∧
       ∀ r ∈ streamHistoricalBatched gen name (some N) 0 bs,
         r.generator = name) := by
  constructor
  · intro gen times name N hN
    rw [streamRealtimeFrom_spec gen times name N N 0 (by omega)]
    refine ⟨?_, ?_, ?_⟩
    · rw [stampFrom_length]; simp
    · rw [stampFrom_map_recordId]
      simp [List.range_eq_range']
    · intro r hr
      exact stampFrom_generator gen name _ 0 r hr
  · intro gen name N bs hN
    rw [streamHistoricalBatched_eq]
    have hN0 : ¬ N = 0 := by omega
    have htc : takeCap (some N) 0 (bs.flatMap (·.2)) =
        (bs.flatMap (·.2)).take N := by
      simp [takeCap, hN0]
    rw [htc]
    refine ⟨?_, ?_, ?_⟩
    · rw [stampFrom_length]; simp [List.length_take]
    · rw [stampFrom_map_recordId]
      simp [List.range_eq_range', List.length_take]
    · intro r hr
      exact stampFrom_generator gen name _ 0 r hr

/-- Witness for `stream_count_ids_and_tagging`: three real-time records and a
two-day historical batch capped at 3 of its 4 timestamps. -/
theorem stream_count_ids_and_tagging_witness :
    (streamRealtimeFrom (fun _ => (0 : Nat)) (fun _ => 7) "G" 3 0).length = 3 ∧
    (streamHistoricalBatched (fun _ => (0 : Nat)) "G" (some 3) 0
      [(1, [90000, 90060]), (2, [180000, 180060])]).length =
      min 3 (([(1, [90000, 90060]), (2, [180000, 180060])].flatMap
        (fun p => p.2)).length) :=
  ⟨((stream_count_ids_and_tagging Nat).1 _ _ "G" 3 (by omega)).1,
   ((stream_count_ids_and_tagging Nat).2 _ "G" 3 _ (by omega)).1⟩

/-! Properties of `_group_timestamps_by_day`

The batches built by the fold have pairwise-distinct, strictly increasing day
keys whenever the input is sorted; sorting the batches by key and flattening
therefore yields a sorted sequence drawn from the input. -/

theorem dayOf_le_dayOf {a b : Nat} (h : a ≤ b) : dayOf a ≤ dayOf b :=
  Nat.div_le_div_right h

theorem lt_of_dayOf_lt {a b : Nat} (h : dayOf a < dayOf b) : a < b := by
  by_contra hc
  push_neg at hc
  exact absurd (dayOf_le_dayOf hc) (by omega)

theorem mem_dictAppendTs_flat (m : List (Nat × List Nat)) (d t u : Nat)
    (h : u ∈ (dictAppendTs m d t).flatMap (·.2)) :
    u ∈ m.flatMap (·.2) ∨ u = t := by
  induction m with
  | nil =>
    simp [dictAppendTs] at h
    exact Or.inr h
  | cons p rest ih =>
    obtain ⟨k, g⟩ := p
    by_cases hk : k = d
    · simp only [dictAppendTs, if_pos hk, List.flatMap_cons, List.mem_append] at h ⊢
      rcases h with (h | h) | h
      · exact Or.inl (Or.inl h)
      · exact Or.inr (List.mem_singleton.mp h)
      · exact Or.inl (Or.inr h)
    · simp only [dictAppendTs, if_neg hk, List.flatMap_cons, List.mem_append] at h ⊢
      rcases h with h | h
      · exact Or.inl (Or.inl h)
      · rcases ih h with h1 | h1
        · exact Or.inl (Or.inr h1)
        · exact Or.inr h1

theorem dictAppendTs_keys (m : List (Nat × List Nat)) (d t : Nat) :
    ∀ p ∈ dictAppendTs m d t, p.1 = d ∨ ∃ q ∈ m, p.1 = q.1 := by
  induction m with
  | nil =>
    intro p hp
    simp [dictAppendTs] at hp
    exact Or.inl (by rw [hp])
  | cons b rest ih =>
    obtain ⟨k, g⟩ := b
    intro p hp
    by_cases hk : k = d
    · simp only [dictAppendTs, if_pos hk] at hp
      rcases List.mem_cons.mp hp with rfl | hp'
      · exact Or.inr ⟨(k, g), by simp⟩
      · exact Or.inr ⟨p, List.mem_cons_of_mem _ hp', rfl⟩
    · simp only [dictAppendTs, if_neg hk] at hp
      rcases List.mem_cons.mp hp with rfl | hp'
      · exact Or.inr ⟨(k, g), by simp, rfl⟩
      · rcases ih p hp' with h1 | ⟨q, hq, h2⟩
        · exact Or.inl h1
        · exact Or.inr ⟨q, List.mem_cons_of_mem _ hq, h2⟩

/-- The invariant of the day-batch dictionary: strictly increasing keys,
nonempty batches all of whose timestamps lie on the key's day, each batch
sorted. -/
def GoodBatches (m : List (Nat × List Nat)) : Prop :=
  m.Pairwise (fun a b => a.1 < b.1) ∧
  ∀ p ∈ m, p.2 ≠ [] ∧ (∀ u ∈ p.2, dayOf u = p.1) ∧
    p.2.Pairwise (fun a b : Nat => a ≤ b)

theorem dictAppendTs_good (m : List (Nat × List Nat)) (t : Nat)
    (hg : GoodBatches m) (hb : ∀ u ∈ m.flatMap (·.2), u ≤ t) :
    GoodBatches (dictAppendTs m (dayOf t) t) := by
  induction m with
  | nil =>
    refine ⟨List.pairwise_singleton _ _, ?_⟩
    intro p hp
    simp [dictAppendTs] at hp
    subst hp
    exact ⟨by simp, by simp, List.pairwise_singleton _ _⟩
  | cons b rest ih =>
    obtain ⟨k, g⟩ := b
    obtain ⟨hpw, hprops⟩ := hg
    obtain ⟨hk_rest, hrest_pw⟩ := List.pairwise_cons.mp hpw
    obtain ⟨hgne, hgday, hgsort⟩ := hprops (k, g) (by simp)
    have hbg : ∀ u ∈ g, u ≤ t := by
      intro u hu
      exact hb u (by simp [List.mem_flatMap]; exact Or.inl hu)
    have hbrest : ∀ u ∈ rest.flatMap (·.2), u ≤ t := by
      intro u hu
      refine hb u ?_
      simp only [List.flatMap_cons, List.mem_append]
      exact Or.inr hu
    by_cases hk : k = dayOf t
    · simp only [dictAppendTs, if_pos hk]
      refine ⟨List.pairwise_cons.mpr ⟨hk_rest, hrest_pw⟩, ?_⟩
      intro p hp
      rcases List.mem_cons.mp hp with rfl | hp'
      · refine ⟨by simp, ?_, ?_⟩
        · intro u hu
          rcases List.mem_append.mp hu with h1 | h1
          · exact hgday u h1
          · rw [List.mem_singleton.mp h1, hk]
        · rw [List.pairwise_append]
          exact ⟨hgsort, List.pairwise_singleton _ _,
            fun a ha b hb2 => by rw [List.mem_singleton.mp hb2]; exact hbg a ha⟩
      · exact hprops p (List.mem_cons_of_mem _ hp')
    · simp only [dictAppendTs, if_neg hk]
      have hrest_good : GoodBatches rest :=
        ⟨hrest_pw, fun p hp => hprops p (List.mem_cons_of_mem _ hp)⟩
      have ihres := ih hrest_good hbrest
      have hk_lt : k < dayOf t := by
        obtain ⟨u0, hu0⟩ := List.exists_mem_of_ne_nil g hgne
        have h1 : dayOf u0 = k := hgday u0 hu0
        have h2 : u0 ≤ t := hbg u0 hu0
        have h3 : dayOf u0 ≤ dayOf t := dayOf_le_dayOf h2
        omega
      refine ⟨List.pairwise_cons.mpr ⟨?_, ihres.1⟩, ?_⟩
      · intro b hbmem
        rcases dictAppendTs_keys rest (dayOf t) t b hbmem with h1 | ⟨q, hq, h2⟩
        · omega
        · rw [h2]; exact hk_rest q hq
      · intro p hp
        rcases List.mem_cons.mp hp with rfl | hp'
        · exact ⟨hgne, hgday, hgsort⟩
        · exact ihres.2 p hp'

theorem fold_good : ∀ (l : List Nat) (acc : List (Nat × List Nat)),
    l.Pairwise (fun a b : Nat => a ≤ b) → GoodBatches acc →
    (∀ u ∈ acc.flatMap (·.2), ∀ v ∈ l, u ≤ v) →
    GoodBatches (l.foldl (fun m t => dictAppendTs m (dayOf t) t) acc) := by
  intro l
  induction l with
  | nil => intro acc _ hg _; simpa using hg
  | cons t ts ih =>
    intro acc hl hg hb
    simp only [List.foldl_cons]
    obtain ⟨hpw_t, hl2⟩ := List.pairwise_cons.mp hl
    have hbt : ∀ u ∈ acc.flatMap (·.2), u ≤ t := fun u hu => hb u hu t (by simp)
    refine ih (dictAppendTs acc (dayOf t) t) hl2 (dictAppendTs_good acc t hg hbt) ?_
    intro u hu v hv
    rcases mem_dictAppendTs_flat acc (dayOf t) t u hu with h1 | h1
    · exact hb u h1 v (List.mem_cons_of_mem _ hv)
    · rw [h1]; exact hpw_t v hv

theorem flat_sorted (bs : List (Nat × List Nat))
    (hk : bs.Pairwise (fun a b => a.1 < b.1))
    (hp : ∀ p ∈ bs, (∀ u ∈ p.2, dayOf u = p.1) ∧
      p.2.Pairwise (fun a b : Nat => a ≤ b)) :
    (bs.flatMap (·.2)).Pairwise (fun a b : Nat => a ≤ b) := by
  induction bs with
  | nil => simp
  | cons p rest ih =>
    simp only [List.flatMap_cons]
    rw [List.pairwise_append]
    obtain ⟨hpd, hps⟩ := hp p (by simp)
    refine ⟨hps, ih (List.pairwise_cons.mp hk).2
      (fun q hq => hp q (List.mem_cons_of_mem _ hq)), ?_⟩
    intro a ha b hb
    obtain ⟨q, hq, hbq⟩ := List.mem_flatMap.mp hb
    have h1 : p.1 < q.1 := (List.pairwise_cons.mp hk).1 q hq
    have hda : dayOf a = p.1 := hpd a ha
    have hdb : dayOf b = q.1 := (hp q (List.mem_cons_of_mem _ hq)).1 b hbq
    exact le_of_lt (lt_of_dayOf_lt (by omega))

theorem fold_flat_subset : ∀ (l : List Nat) (acc : List (Nat × List Nat)) (u : Nat),
    u ∈ ((l.foldl (fun m t => dictAppendTs m (dayOf t) t) acc).flatMap (·.2)) →
    u ∈ acc.flatMap (·.2) ∨ u ∈ l := by
  intro l
  induction l with
  | nil => intro acc u h; exact Or.inl h
  | cons t ts ih =>
    intro acc u h
    simp only [List.foldl_cons] at h
    rcases ih (dictAppendTs acc (dayOf t) t) u h with h1 | h1
    · rcases mem_dictAppendTs_flat acc (dayOf t) t u h1 with h2 | h2
      · exact Or.inl h2
      · exact Or.inr (by rw [h2]; simp)
    · exact Or.inr (List.mem_cons_of_mem t h1)

theorem groupTimestampsByDay_flat_subset (l : List Nat) (u : Nat)
    (h : u ∈ (groupTimestampsByDay l).flatMap (·.2)) : u ∈ l := by
  unfold groupTimestampsByDay at h
  obtain ⟨p, hp, hu⟩ := List.mem_flatMap.mp h
  have hp2 : p ∈ l.foldl (fun m t => dictAppendTs m (dayOf t) t) [] :=
    (List.perm_insertionSort keyLe _).subset hp
  rcases fold_flat_subset l [] u (List.mem_flatMap.mpr ⟨p, hp2, hu⟩) with h1 | h1
  · simp at h1
  · exact h1

theorem groupTimestampsByDay_flat_sorted (l : List Nat)
    (hl : l.Pairwise (fun a b : Nat => a ≤ b)) :
    ((groupTimestampsByDay l).flatMap (·.2)).Pairwise (fun a b : Nat => a ≤ b) := by
  unfold groupTimestampsByDay
  set f := l.foldl (fun m t => dictAppendTs m (dayOf t) t) [] with hf
  have hgood : GoodBatches f :=
    fold_good l [] hl ⟨List.Pairwise.nil, by simp⟩ (by simp)
  have hperm : (List.insertionSort keyLe f).Perm f := List.perm_insertionSort keyLe f
  have hkeys_le : (List.insertionSort keyLe f).Pairwise keyLe :=
    List.sorted_insertionSort keyLe f
  have hnodupf : (f.map (·.1)).Nodup :=
    List.pairwise_map.mpr (hgood.1.imp (fun h => ne_of_lt h))
  have hnodupout : ((List.insertionSort keyLe f).map (·.1)).Nodup :=
    ((hperm.map (·.1)).nodup_iff).mpr hnodupf
  have hkeys_ne : (List.insertionSort keyLe f).Pairwise (fun a b => a.1 ≠ b.1) :=
    List.pairwise_map.mp hnodupout
  have hkeys_lt : (List.insertionSort keyLe f).Pairwise (fun a b => a.1 < b.1) :=
    (hkeys_le.and hkeys_ne).imp (fun h => lt_of_le_of_ne h.1 h.2)
  refine flat_sorted _ hkeys_lt ?_
  intro p hp
  have := hgood.2 p (hperm.subset hp)
  exact ⟨this.2.1, this.2.2⟩

/-! Window containment of the synthesized timestamps -/

theorem generateBusinessHour_le (d : TimeDraws) : generateBusinessHour d ≤ 23 := by
  unfold generateBusinessHour simtomRandint
  split_ifs with h1 h2
  · have := Nat.mod_lt d.hourDraw1 (show 0 < 17 - 9 + 1 by omega)
    omega
  · have := Nat.mod_lt d.hourDraw2 (show 0 < 22 - 18 + 1 by omega)
    omega
  · have h10 : d.hourDraw3 % 10 < 10 := Nat.mod_lt _ (by omega)
    have hall : ∀ i, i < 10 →
        ([23, 0, 1, 2, 3, 4, 5, 6, 7, 8] : List Nat).getD i 23 ≤ 23 := by decide
    exact hall _ h10

theorem generateSimpleDatetime_day (dayOrd : Nat) (d : TimeDraws) :
    dayOf (generateSimpleDatetime dayOrd d) = dayOrd := by
  unfold generateSimpleDatetime dayOf simtomRandint
  have h1 := generateBusinessHour_le d
  have h2 : d.minuteDraw % (59 - 0 + 1) < 60 := Nat.mod_lt _ (by omega)
  have h3 : d.secondDraw % (59 - 0 + 1) < 60 := Nat.mod_lt _ (by omega)
  omega

theorem mem_raw_day (baseVolume : Nat) (noise : Nat → ℚ)
    (draws : Nat → Nat → TimeDraws) :
    ∀ (k currentDay endDay : Nat), k = endDay + 1 - currentDay →
      ∀ t ∈ generateVolumeAwareTimestampsRaw baseVolume noise draws
        currentDay endDay,
        currentDay ≤ dayOf t ∧ dayOf t ≤ endDay := by
  intro k
  induction k with
  | zero =>
    intro cur endD hk t ht
    rw [generateVolumeAwareTimestampsRaw, if_neg (by omega)] at ht
    cases ht
  | succ k ih =>
    intro cur endD hk t ht
    rw [generateVolumeAwareTimestampsRaw] at ht
    by_cases hle : cur ≤ endD
    · rw [if_pos hle] at ht
      rcases List.mem_append.mp ht with h1 | h1
      · obtain ⟨j, hj, hjt⟩ := List.mem_map.mp h1
        rw [← hjt, generateSimpleDatetime_day]
        omega
      · have := ih (cur + 1) endD (by omega) t h1
        omega
    · rw [if_neg hle] at ht
      cases ht

theorem uniformDayOffset_lt (i totalRecords totalDays : Nat)
    (hi : i < totalRecords) (htd : 0 < totalDays) :
    uniformDayOffset i totalRecords totalDays < totalDays := by
  unfold uniformDayOffset truncQ
  have htr : (0 : ℚ) < totalRecords := by
    have : 0 < totalRecords := by omega
    exact_mod_cast this
  have hx0 : (0 : ℚ) ≤ (i : ℚ) / totalRecords * totalDays := by positivity
  rw [if_pos hx0]
  have htdq : (0 : ℚ) < totalDays := by exact_mod_cast htd
  have h1 : (i : ℚ) / totalRecords < 1 := by
    rw [div_lt_one htr]
    exact_mod_cast hi
  have hxlt : (i : ℚ) / totalRecords * totalDays < totalDays := by
    calc (i : ℚ) / totalRecords * totalDays
        < 1 * totalDays := mul_lt_mul_of_pos_right h1 htdq
      _ = totalDays := one_mul _
  have hfl : ⌊(i : ℚ) / totalRecords * totalDays⌋ < (totalDays : Int) :=
    Int.floor_lt.mpr (by exact_mod_cast hxlt)
  have hfl0 : 0 ≤ ⌊(i : ℚ) / totalRecords * totalDays⌋ := Int.floor_nonneg.mpr hx0
  omega

theorem mem_uniformRaw_day (maxRecords : Option Nat) (baseVolume : Nat)
    (draws : Nat → TimeDraws) (startDay endDay : Nat)
    (hwindow : startDay ≤ endDay) :
    ∀ t ∈ generateUniformTimestampsRaw maxRecords baseVolume draws
      startDay endDay,
      startDay ≤ dayOf t ∧ dayOf t ≤ endDay := by
  intro t ht
  unfold generateUniformTimestampsRaw at ht
  obtain ⟨i, hi, hit⟩ := List.mem_map.mp ht
  rw [List.mem_range] at hi
  rw [← hit, generateSimpleDatetime_day]
  have hofs := uniformDayOffset_lt i
    (uniformTotalRecords maxRecords baseVolume (endDay - startDay + 1))
    (endDay - startDay + 1) hi (by omega)
  omega

theorem mem_generateHistoricalTimestamps_day (volumeVariationEnabled : Bool)
    (maxRecords : Option Nat) (baseVolume : Nat) (noise : Nat → ℚ)
    (volumeDraws : Nat → Nat → TimeDraws) (uniformDraws : Nat → TimeDraws)
    (startDay endDay : Nat) (hwindow : startDay ≤ endDay) :
    ∀ t ∈ generateHistoricalTimestamps volumeVariationEnabled maxRecords
      baseVolume noise volumeDraws uniformDraws startDay endDay,
      startDay ≤ dayOf t ∧ dayOf t ≤ endDay := by
  intro t ht
  unfold generateHistoricalTimestamps at ht
  cases volumeVariationEnabled with
  | true =>
    rw [if_pos rfl] at ht
    unfold generateVolumeAwareTimestamps at ht
    exact mem_raw_day baseVolume noise volumeDraws _ startDay endDay rfl _
      ((List.perm_insertionSort (fun a b : Nat => a ≤ b) _).subset ht)
  | false =>
    rw [if_neg (by simp)] at ht
    unfold generateUniformTimestamps at ht
    exact mem_uniformRaw_day maxRecords baseVolume uniformDraws startDay endDay
      hwindow _ ((List.perm_insertionSort (fun a b : Nat => a ≤ b) _).subset ht)

theorem generateHistoricalTimestamps_sorted (volumeVariationEnabled : Bool)
    (maxRecords : Option Nat) (baseVolume : Nat) (noise : Nat → ℚ)
    (volumeDraws : Nat → Nat → TimeDraws) (uniformDraws : Nat → TimeDraws)
    (startDay endDay : Nat) :
    (generateHistoricalTimestamps volumeVariationEnabled maxRecords baseVolume
      noise volumeDraws uniformDraws startDay endDay).Pairwise
      (fun a b : Nat => a ≤ b) := by
  unfold generateHistoricalTimestamps
  cases volumeVariationEnabled with
  | true =>
    rw [if_pos rfl]
    exact List.sorted_insertionSort (fun a b : Nat => a ≤ b) _
  | false =>
    rw [if_neg (by simp)]
    exact List.sorted_insertionSort (fun a b : Nat => a ≤ b) _

/-- C4: every record the BNPL generator produces in historical mode over a
configured window `[startDay, endDay]` (validated configurations always have
`start_date ≤ end_date`) — for either setting of `volume_variation_enabled`,
any cap, volumes and draws — carries a timestamp whose calendar day lies
inside the window, and the produced sequence of timestamps is
non-decreasing. -/
theorem bnpl_historical_window_and_order (α : Type) (gen : Nat → α)
    (name : String) (maxRecords : Option Nat) (volumeVariationEnabled : Bool)
    (baseVolume : Nat) (noise : Nat → ℚ) (volumeDraws : Nat → Nat → TimeDraws)
    (uniformDraws : Nat → TimeDraws) (startDay endDay : Nat)
    (hwindow : startDay ≤ endDay) :
    (∀ r ∈ bnplHistoricalStream gen name maxRecords volumeVariationEnabled
        baseVolume noise volumeDraws uniformDraws startDay endDay,
      startDay ≤ dayOf r.timestamp ∧ dayOf r.timestamp ≤ endDay) ∧
    ((bnplHistoricalStream gen name maxRecords volumeVariationEnabled
        baseVolume noise volumeDraws uniformDraws startDay
        endDay).map (·.timestamp)).Pairwise (fun a b : Nat => a ≤ b) := by
  unfold bnplHistoricalStream
  rw [streamHistoricalBatched_eq]
  have hsorted_ts := generateHistoricalTimestamps_sorted volumeVariationEnabled
    maxRecords baseVolume noise volumeDraws uniformDraws startDay endDay
  have hflat := groupTimestampsByDay_flat_sorted _ hsorted_ts
  constructor
  · intro r hr
    have h1 : r.timestamp ∈ (stampFrom gen name 0 (takeCap maxRecords 0
        ((groupTimestampsByDay (generateHistoricalTimestamps
          volumeVariationEnabled maxRecords baseVolume noise volumeDraws
          uniformDraws startDay endDay)).flatMap (·.2)))).map (·.timestamp) :=
      List.mem_map_of_mem _ hr
    rw [stampFrom_map_timestamp] at h1
    have h2 := (takeCap_sublist _ _ _).subset h1
    have h3 := groupTimestampsByDay_flat_subset _ _ h2
    exact mem_generateHistoricalTimestamps_day volumeVariationEnabled maxRecords
      baseVolume noise volumeDraws uniformDraws startDay endDay hwindow _ h3
  · rw [stampFrom_map_timestamp]
    exact List.Pairwise.sublist (takeCap_sublist _ _ _) hflat

/-- Witness for `bnpl_historical_window_and_order`, exercising the uniform
(`volume_variation_enabled = False`) branch over a one-day window. -/
theorem bnpl_historical_window_and_order_witness :
    (739038 : Nat) ≤ 739038 ∧
    ((∀ r ∈ bnplHistoricalStream (fun _ => (0 : Nat)) "BNPLGenerator" none false
        1 (fun _ => 1) (fun _ _ => ⟨0, 0, 0, 0, 0, 0⟩) (fun _ => ⟨0, 0, 0, 0, 0, 0⟩)
        739038 739038,
      739038 ≤ dayOf r.timestamp ∧ dayOf r.timestamp ≤ 739038) ∧
    ((bnplHistoricalStream (fun _ => (0 : Nat)) "BNPLGenerator" none false
        1 (fun _ => 1) (fun _ _ => ⟨0, 0, 0, 0, 0, 0⟩) (fun _ => ⟨0, 0, 0, 0, 0, 0⟩)
        739038 739038).map (·.timestamp)).Pairwise (fun a b : Nat => a ≤ b)) :=
  ⟨by omega,
    bnpl_historical_window_and_order Nat (fun _ => 0) "BNPLGenerator" none false
      1 (fun _ => 1) (fun _ _ => ⟨0, 0, 0, 0, 0, 0⟩) (fun _ => ⟨0, 0, 0, 0, 0, 0⟩)
      739038 739038 (by omega)⟩

end Simtom
